import Mathlib

/-!
Verification of the flowbit-ai-memory-agent confidence-memory pipeline.

The TypeScript sources are shallowly embedded here:
* each persisted JSON store (`vendorMemory.json`, `correctionMemory.json`,
  `resolutionMemory.json`, `duplicateMemory.json`) becomes an explicit
  association-list value threaded through the operations (the code's
  load / mutate / save cycle under single-writer sequential access);
* JavaScript numbers are modelled as rationals; `Math.round(x * 10) / 10`
  becomes `jsRound` (floor of `x + 1/2`, which is exactly JS `Math.round`
  on the non-negative values arising here);
* `new Date().toISOString()` becomes an explicit `now : String` argument;
* JS string truthiness (`""`, `null`, `undefined` are falsy) is `jsStrTruthy`.
-/

set_option linter.unusedVariables false

/-- A JavaScript object used as a string-keyed map: an association list.
`set` overwrites in place (preserving property order) or appends, matching
`obj[key] = value` semantics. -/
def ObjMap (α : Type) : Type := List (String × α)

instance (α : Type) [DecidableEq α] : DecidableEq (ObjMap α) :=
  inferInstanceAs (DecidableEq (List (String × α)))

def ObjMap.find {α : Type} : ObjMap α → String → Option α
  | [], _ => none
  | (k, v) :: rest, key => if k = key then some v else ObjMap.find rest key

def ObjMap.set {α : Type} : ObjMap α → String → α → ObjMap α
  | [], key, val => [(key, val)]
  | (k, v) :: rest, key, val =>
    if k = key then (k, val) :: rest else (k, v) :: ObjMap.set rest key val

/-- JS `Math.round`: nearest integer, halves toward positive infinity,
i.e. `⌊q + 1/2⌋` (stated via the executable `Rat.floor`). -/
def jsRound (q : ℚ) : ℤ := (q + 1/2).floor

/-- JS string truthiness for a `string | null | undefined` value. -/
def jsStrTruthy : Option String → Bool
  | none => false
  | some s => !(s == "")

def listStartsWith : List Char → List Char → Bool
  | [], _ => true
  | _ :: _, [] => false
  | p :: ps, c :: cs => p == c && listStartsWith ps cs

def listContainsSub (needle : List Char) : List Char → Bool
  | [] => listStartsWith needle []
  | c :: cs => listStartsWith needle (c :: cs) || listContainsSub needle cs

/-- JS `s.includes(pat)` (for the non-empty literal patterns used in the code). -/
def jsIncludes (s pat : String) : Bool := listContainsSub pat.data s.data

/-- JS `s.toLowerCase()`, modelled character-wise (the keys involved are
ASCII). -/
def jsToLower (s : String) : String := String.mk (s.data.map Char.toLower)

/-- JS `s.trim()`: strip whitespace from both ends. -/
def jsTrim (s : String) : String :=
  String.mk (((s.data.dropWhile Char.isWhitespace).reverse.dropWhile
    Char.isWhitespace).reverse)

/-! ## correctionMemory.ts -/

structure CorrectionData where
  patternId : String
  description : String
  action : String
  confidence : ℚ
  approvedCount : ℕ
  rejectedCount : ℕ
  lastUpdated : String
deriving DecidableEq

/-- The update `memory[patternId].confidence + 0.1`, capped at `1.0`, then
`Math.round(newConfidence * 10) / 10` (lines 58-61 of correctionMemory.ts,
identical arithmetic at lines 62-66 of vendorMemory.ts). -/
def reinforceConf (c : ℚ) : ℚ :=
  let n := c + 1/10
  let n := if n > 1 then 1 else n
  (jsRound (n * 10) : ℚ) / 10

/-- The update `memory[patternId].confidence - 0.2`, floored at `0.0`, then
`Math.round(newConfidence * 10) / 10` (lines 91-94 of correctionMemory.ts). -/
def decayConf (c : ℚ) : ℚ :=
  let n := c - 2/10
  let n := if n < 0 then 0 else n
  (jsRound (n * 10) : ℚ) / 10

/-- Source `rememberCorrectionApproval` from correctionMemory.ts, with the persisted
store as explicit state and the timestamp as a parameter. -/
def rememberCorrectionApproval (memory : ObjMap CorrectionData)
    (patternId description action : String) (timestamp : String) :
    ObjMap CorrectionData :=
  match memory.find patternId with
  | some d =>
    memory.set patternId
      { d with confidence := reinforceConf d.confidence,
               approvedCount := d.approvedCount + 1,
               lastUpdated := timestamp }
  | none =>
    memory.set patternId
      { patternId := patternId, description := description, action := action,
        confidence := 1/2, approvedCount := 1, rejectedCount := 0,
        lastUpdated := timestamp }

/-- Source `rememberCorrectionRejection` from correctionMemory.ts. -/
def rememberCorrectionRejection (memory : ObjMap CorrectionData)
    (patternId : String) (timestamp : String) : ObjMap CorrectionData :=
  match memory.find patternId with
  | some d =>
    memory.set patternId
      { d with confidence := decayConf d.confidence,
               rejectedCount := d.rejectedCount + 1,
               lastUpdated := timestamp }
  | none => memory

/-- Source `getCorrectionMemory` from correctionMemory.ts. -/
def getCorrectionMemory (memory : ObjMap CorrectionData) (patternId : String) :
    Option CorrectionData :=
  memory.find patternId

/-! ## vendorMemory.ts -/

structure VendorData where
  serviceDateLabel : String
  confidence : ℚ
deriving DecidableEq

/-- Source `rememberVendorCorrection` from vendorMemory.ts. -/
def rememberVendorCorrection (memory : ObjMap VendorData)
    (vendorName serviceDateLabel : String) : ObjMap VendorData :=
  match memory.find vendorName with
  | some d =>
    memory.set vendorName
      { serviceDateLabel := serviceDateLabel,
        confidence := reinforceConf d.confidence }
  | none =>
    memory.set vendorName
      { serviceDateLabel := serviceDateLabel, confidence := 1/2 }

/-- Source `getVendorMemory` from vendorMemory.ts. -/
def getVendorMemory (memory : ObjMap VendorData) (vendorName : String) :
    Option VendorData :=
  memory.find vendorName

/-- The boolean decision test `vendorMem && vendorConfidence >= THRESHOLD`
(`THRESHOLD = 0.6`, index.ts lines 412 and 420) as a function of the vendor
store. -/
def vendorAbove (memory : ObjMap VendorData) (vendorName : String) : Bool :=
  match memory.find vendorName with
  | some m => decide (m.confidence ≥ 3/5)
  | none => false

/-! ## resolutionMemory.ts -/

inductive Decision where
  | approved
  | rejected
deriving DecidableEq

structure ResolutionData where
  memoryId : String
  approvedCount : ℕ
  rejectedCount : ℕ
  lastDecision : Decision
  lastUpdated : String
deriving DecidableEq

/-- Source `recordApproval` from resolutionMemory.ts. -/
def recordApproval (memory : ObjMap ResolutionData) (memoryId : String)
    (timestamp : String) : ObjMap ResolutionData :=
  match memory.find memoryId with
  | some d =>
    memory.set memoryId
      { d with approvedCount := d.approvedCount + 1,
               lastDecision := .approved, lastUpdated := timestamp }
  | none =>
    memory.set memoryId
      { memoryId := memoryId, approvedCount := 1, rejectedCount := 0,
        lastDecision := .approved, lastUpdated := timestamp }

/-- Source `recordRejection` from resolutionMemory.ts. -/
def recordRejection (memory : ObjMap ResolutionData) (memoryId : String)
    (timestamp : String) : ObjMap ResolutionData :=
  match memory.find memoryId with
  | some d =>
    memory.set memoryId
      { d with rejectedCount := d.rejectedCount + 1,
               lastDecision := .rejected, lastUpdated := timestamp }
  | none =>
    memory.set memoryId
      { memoryId := memoryId, approvedCount := 0, rejectedCount := 1,
        lastDecision := .rejected, lastUpdated := timestamp }

/-- Source `getResolutionStats` from resolutionMemory.ts. -/
def getResolutionStats (memory : ObjMap ResolutionData) (memoryId : String) :
    Option ResolutionData :=
  memory.find memoryId

/-! ## duplicateMemory.ts -/

structure DuplicateEntry where
  duplicateKey : String
  vendor : String
  invoiceNumber : String
  invoiceDate : String
  firstSeenAt : String
  seenCount : ℕ
deriving DecidableEq

/-- The composite key `` `${vendor}|${invoiceNumber}|${invoiceDate}` ``. -/
def duplicateKey (vendor invoiceNumber invoiceDate : String) : String :=
  vendor ++ "|" ++ invoiceNumber ++ "|" ++ invoiceDate

/-- Source `checkAndRecordInvoice` from duplicateMemory.ts: returns the updated store
together with `{ isDuplicate, seenCount }`. -/
def checkAndRecordInvoice (memory : ObjMap DuplicateEntry)
    (vendor invoiceNumber invoiceDate : String) (timestamp : String) :
    ObjMap DuplicateEntry × Bool × ℕ :=
  let key := duplicateKey vendor invoiceNumber invoiceDate
  match memory.find key with
  | some e =>
    (memory.set key { e with seenCount := e.seenCount + 1 }, true, e.seenCount + 1)
  | none =>
    (memory.set key
      { duplicateKey := key, vendor := vendor, invoiceNumber := invoiceNumber,
        invoiceDate := invoiceDate, firstSeenAt := timestamp, seenCount := 1 },
     false, 1)

/-- Source `isDuplicateInvoice` from duplicateMemory.ts (read-only `!!memory[key]`). -/
def isDuplicateInvoice (memory : ObjMap DuplicateEntry)
    (vendor invoiceNumber invoiceDate : String) : Bool :=
  (memory.find (duplicateKey vendor invoiceNumber invoiceDate)).isSome

/-! ## The four persisted stores, threaded as one state value -/

structure Stores where
  vendorMemory : ObjMap VendorData
  correctionMemory : ObjMap CorrectionData
  resolutionMemory : ObjMap ResolutionData
  duplicateMemory : ObjMap DuplicateEntry
deriving DecidableEq

/-- The state after `resetAllMemories`: every store file deleted. -/
def emptyStores : Stores :=
  { vendorMemory := [], correctionMemory := [], resolutionMemory := [],
    duplicateMemory := [] }

/-! ## Candidate detectors from index.ts (the full engine) -/

/-- Source `detectVATIncluded` from index.ts. -/
def detectVATIncluded (vendor rawText : String) : Bool :=
  if vendor ≠ "Parts AG" then false
  else
    ["MwSt. inkl", "Prices incl. VAT", "VAT already included"].any
      (fun p => jsIncludes rawText p)

/-- Source `inferCurrencyFromRawText` from index.ts. -/
def inferCurrencyFromRawText (rawText : String) : Option String :=
  if jsIncludes rawText "EUR" then some "EUR"
  else if jsIncludes rawText "USD" then some "USD"
  else if jsIncludes rawText "GBP" then some "GBP"
  else none

structure LineItem where
  description : String
  quantity : ℚ
  unitPrice : ℚ
  totalPrice : ℚ
  sku : Option String
deriving DecidableEq

structure POLineItem where
  sku : String
  description : String
  quantity : ℚ
  unitPrice : ℚ
deriving DecidableEq

structure PurchaseOrder where
  poNumber : String
  vendor : String
  createdDate : String
  status : String
  lineItems : List POLineItem
deriving DecidableEq

/-- Source `findMatchingPO` from index.ts. -/
def findMatchingPO (purchaseOrders : List PurchaseOrder) (vendor : String)
    (invoiceLineItems : List LineItem) : Option PurchaseOrder :=
  let vendorPOs := purchaseOrders.filter (fun po => po.vendor == vendor)
  if vendorPOs.length == 0 then none
  else
    let invoiceDescriptions :=
      invoiceLineItems.map (fun li => jsTrim (jsToLower li.description))
    let matchingPOs := vendorPOs.filter (fun po =>
      let poDescriptions := po.lineItems.map (fun li => jsTrim (jsToLower li.description))
      invoiceDescriptions.all (fun desc => poDescriptions.contains desc))
    if matchingPOs.length == 1 then matchingPOs.head? else none

/-- Source `detectSkonto` from index.ts. -/
def detectSkonto (vendor rawText : String) : Option String :=
  if vendor ≠ "Freight & Co" then none
  else if !(jsIncludes rawText "Skonto") && !(jsIncludes rawText "paid within") then
    none
  else
    match (rawText.splitOn "\n").find?
        (fun line => jsIncludes line "Skonto" || jsIncludes line "paid within") with
    | some line => some (jsTrim line)
    | none => none

/-- Source `isFreightService` from index.ts. -/
def isFreightService (description : String) : Bool :=
  ["Seefracht", "Shipping", "Transport"].any (fun kw => jsIncludes description kw)

/-! ## Invoice data types (index.ts) -/

structure InvoiceFields where
  invoiceNumber : String
  invoiceDate : String
  currency : Option String
  poNumber : Option String
  lineItems : List LineItem
deriving DecidableEq

structure ExtractedInvoice where
  invoiceId : String
  vendor : String
  fields : InvoiceFields
  rawText : String
deriving DecidableEq

inductive Step where
  | ingest
  | recall
  | apply
  | decide
  | learn
  | duplicate_check
  | detect
  | po_match
  | sku_map
deriving DecidableEq

structure AuditEntry where
  step : Step
  timestamp : String
  details : String
deriving DecidableEq


/-- Constructor shorthand for `auditTrail.push({ step, timestamp, details })`. -/
def audit (step : Step) (timestamp details : String) : AuditEntry :=
  { step := step, timestamp := timestamp, details := details }

structure FieldCorrection where
  field : String
  originalValue : String
  correctedValue : String
  reason : String
deriving DecidableEq

structure HumanCorrection where
  correctionId : String
  invoiceId : String
  vendor : String
  fieldsCorrected : List FieldCorrection
  finalDecision : Decision
  timestamp : String
deriving DecidableEq

/-! ## applyHumanCorrections (index.ts, full engine) -/

/-- One iteration of the inner `for (const fc of fieldsCorrected)` loop of
`applyHumanCorrections`. `String(fc.correctedValue)` is modelled by taking
`correctedValue` to be the resulting string. -/
def applyOneField (vendor : String) (finalDecision : Decision) (now : String)
    (st : Stores) (fc : FieldCorrection) : Stores :=
  let field := jsToLower fc.field
  let reason := jsToLower fc.reason
  let st :=
    if jsIncludes field "servicedate" || field == "servicedatelabel" then
      { st with vendorMemory := (
          rememberVendorCorrection st.vendorMemory vendor fc.correctedValue ) }
    else st
  let st :=
    if jsIncludes reason "quantity mismatch" || field == "quantity" then
      { st with correctionMemory := (
          match finalDecision with
          | .approved =>
            rememberCorrectionApproval st.correctionMemory
              "QTY_MISMATCH_USE_DN_QTY" "Quantity Mismatch"
              "Use Delivery Note Quantity" now
          | .rejected =>
            rememberCorrectionRejection st.correctionMemory
              "QTY_MISMATCH_USE_DN_QTY" now ) }
    else st
  let st :=
    if jsIncludes reason "vat" || jsIncludes field "vat" then
      { st with correctionMemory := (
          rememberCorrectionApproval st.correctionMemory "VAT_INCLUDED_IN_TOTAL"
            "VAT Handling" "Totals already include VAT" now ) }
    else st
  if jsIncludes reason "currency" || field == "currency" then
    { st with correctionMemory := (
        rememberCorrectionApproval st.correctionMemory "CURRENCY_MISMATCH"
          "Currency Mismatch" "Correct currency based on vendor" now ) }
  else st

/-- One iteration of the outer `for (const correction of corrections)` loop of
`applyHumanCorrections`: replay the field corrections, then ledger the final
decision under `` `VENDOR:${vendor}:correction` ``. -/
def applyOneCorrection (now : String) (st : Stores) (c : HumanCorrection) :
    Stores :=
  let st := c.fieldsCorrected.foldl (applyOneField c.vendor c.finalDecision now) st
  let memId := "VENDOR:" ++ c.vendor ++ ":correction"
  match c.finalDecision with
  | .approved =>
    { st with resolutionMemory := recordApproval st.resolutionMemory memId now }
  | .rejected =>
    { st with resolutionMemory := recordRejection st.resolutionMemory memId now }

/-- Source `applyHumanCorrections` from index.ts. -/
def applyHumanCorrections (corrections : List HumanCorrection) (now : String)
    (st : Stores) : Stores :=
  corrections.foldl (applyOneCorrection now) st

/-! ## Engine1: `processInvoice` of the full pipeline (index.ts with detectors).
The straight-line source is split at its section comments (PO Matching,
Skonto Detection, Freight SKU Mapping, VAT Detection, Currency Inference,
Recall + Decision, Learning); each section becomes one phase function on the
running `(result, stores)` pair. -/

namespace Engine1

structure NormalizedInvoice where
  vendor : String
  invoiceNumber : String
  invoiceDate : String
  currency : Option String
  serviceDateLabel : Option String
  pricesIncludeVAT : Bool
  poNumber : Option String
  discountTerms : Option String
  lineItems : List LineItem
deriving DecidableEq

structure InvoiceRunResult where
  normalizedInvoice : NormalizedInvoice
  proposedCorrections : List String
  requiresHumanReview : Bool
  reasoning : String
  confidenceScore : ℚ
  memoryUpdates : List String
  auditTrail : List AuditEntry
deriving DecidableEq

/-- The initial `result` object built at the top of `processInvoice`
(`poNumber: existingPO || null`). -/
def initResult (invoice : ExtractedInvoice) : InvoiceRunResult :=
  { normalizedInvoice :=
      { vendor := invoice.vendor
        invoiceNumber := invoice.fields.invoiceNumber
        invoiceDate := invoice.fields.invoiceDate
        currency := invoice.fields.currency
        serviceDateLabel := none
        pricesIncludeVAT := false
        poNumber := if jsStrTruthy invoice.fields.poNumber then invoice.fields.poNumber else none
        discountTerms := none
        lineItems := invoice.fields.lineItems }
    proposedCorrections := []
    requiresHumanReview := true
    reasoning := ""
    confidenceScore := 0
    memoryUpdates := []
    auditTrail := [] }

/-- Section `// PO Matching` (guarded by `if (!existingPO)`). -/
def poMatchPhase (purchaseOrders : List PurchaseOrder) (vendor : String)
    (existingPO : Option String) (lineItems : List LineItem)
    (simulateHumanFeedback : Bool) (now : String)
    (rs : InvoiceRunResult × Stores) : InvoiceRunResult × Stores :=
  let (r, st) := rs
  if jsStrTruthy existingPO then (r, st)
  else
    match findMatchingPO purchaseOrders vendor lineItems with
    | some matchedPO =>
      let r := { r with auditTrail := r.auditTrail ++
        [audit .po_match now ("Found single matching PO: " ++ matchedPO.poNumber)] }
      let poMem := getCorrectionMemory st.correctionMemory "AUTO_PO_MATCH_SINGLE_CANDIDATE"
      let r :=
        match poMem with
        | some m =>
          if m.confidence ≥ 3/5 then
            { r with
              normalizedInvoice :=
                { r.normalizedInvoice with poNumber := some matchedPO.poNumber }
              proposedCorrections := r.proposedCorrections ++
                ["Set poNumber = " ++ matchedPO.poNumber]
              auditTrail := r.auditTrail ++
                [audit .apply now ("Auto-applied poNumber=" ++ matchedPO.poNumber)] }
          else
            { r with proposedCorrections := r.proposedCorrections ++
                ["Set poNumber = " ++ matchedPO.poNumber ++ " (needs review)"] }
        | none =>
          { r with proposedCorrections := r.proposedCorrections ++
              ["Set poNumber = " ++ matchedPO.poNumber ++ " (needs review)"] }
      if simulateHumanFeedback then
        let st := { st with
          correctionMemory := rememberCorrectionApproval st.correctionMemory
            "AUTO_PO_MATCH_SINGLE_CANDIDATE" "Single matching PO"
            ("Set poNumber to " ++ matchedPO.poNumber) now
          resolutionMemory := recordApproval st.resolutionMemory
            ("VENDOR:" ++ vendor ++ ":po") now }
        ({ r with memoryUpdates := r.memoryUpdates ++
            ["Updated Correction Memory for AUTO_PO_MATCH_SINGLE_CANDIDATE"] }, st)
      else (r, st)
    | none =>
      ({ r with auditTrail := r.auditTrail ++
          [audit .po_match now ("No single matching PO found")] }, st)

/-- Section `// Skonto Detection (Freight & Co)` (`if (skontoTerm)` is JS
string truthiness on the detector result). -/
def skontoPhase (vendor rawText : String) (simulateHumanFeedback : Bool)
    (now : String) (rs : InvoiceRunResult × Stores) : InvoiceRunResult × Stores :=
  let (r, st) := rs
  match detectSkonto vendor rawText with
  | some skontoTerm =>
    if skontoTerm == "" then (r, st)
    else
      let r := { r with
        normalizedInvoice := { r.normalizedInvoice with discountTerms := some skontoTerm }
        auditTrail := r.auditTrail ++
          [audit .detect now ("Skonto detected: " ++ skontoTerm)] }
      if simulateHumanFeedback then
        ({ r with memoryUpdates := r.memoryUpdates ++
            ["Updated Vendor Memory with discountTerms"] },
         { st with vendorMemory := (
            rememberVendorCorrection st.vendorMemory vendor skontoTerm ) })
      else (r, st)
  | none => (r, st)

/-- One iteration of the `// Freight SKU Mapping` loop, on the line item at
the current index (`!li.sku` is JS truthiness). -/
def skuMapStep (vendor : String) (simulateHumanFeedback : Bool) (now : String)
    (li : LineItem) (acc : InvoiceRunResult × Stores) :
    LineItem × (InvoiceRunResult × Stores) :=
  let (r, st) := acc
  if !(jsStrTruthy li.sku) && isFreightService li.description then
    let r := { r with auditTrail := r.auditTrail ++
      [audit .sku_map now ("Freight SKU mapped for: " ++ li.description)] }
    let skuMem := getCorrectionMemory st.correctionMemory "FREIGHT_SERVICE_SKU_MAPPING"
    let (li, r) :=
      match skuMem with
      | some m =>
        if m.confidence ≥ 3/5 then
          ({ li with sku := some "FREIGHT" },
           { r with
             proposedCorrections := r.proposedCorrections ++
               ["Set sku = FREIGHT for " ++ li.description]
             auditTrail := r.auditTrail ++
               [audit .apply now ("Auto-applied sku=FREIGHT")] })
        else
          (li, { r with proposedCorrections := r.proposedCorrections ++
              ["Set sku = FREIGHT for " ++ li.description ++ " (needs review)"] })
      | none =>
        (li, { r with proposedCorrections := r.proposedCorrections ++
            ["Set sku = FREIGHT for " ++ li.description ++ " (needs review)"] })
    if simulateHumanFeedback then
      (li,
       ({ r with memoryUpdates := r.memoryUpdates ++
           ["Updated Correction Memory for FREIGHT_SERVICE_SKU_MAPPING"] },
        { st with
          correctionMemory := rememberCorrectionApproval st.correctionMemory
            "FREIGHT_SERVICE_SKU_MAPPING" "Freight service mapped from description"
            "Set sku = FREIGHT" now
          resolutionMemory := recordApproval st.resolutionMemory
            ("VENDOR:" ++ vendor ++ ":sku") now }))
    else (li, (r, st))
  else (li, (r, st))

/-- The `// Freight SKU Mapping` loop over the normalized line items,
left to right. -/
def skuMapGo (vendor : String) (simulateHumanFeedback : Bool) (now : String) :
    List LineItem → InvoiceRunResult × Stores →
    List LineItem × (InvoiceRunResult × Stores)
  | [], acc => ([], acc)
  | li :: rest, acc =>
    let (li', acc') := skuMapStep vendor simulateHumanFeedback now li acc
    let (rest', acc'') := skuMapGo vendor simulateHumanFeedback now rest acc'
    (li' :: rest', acc'')

def skuMapPhase (vendor : String) (simulateHumanFeedback : Bool) (now : String)
    (rs : InvoiceRunResult × Stores) : InvoiceRunResult × Stores :=
  let (items, rs') :=
    skuMapGo vendor simulateHumanFeedback now rs.1.normalizedInvoice.lineItems rs
  let (r, st) := rs'
  ({ r with normalizedInvoice := { r.normalizedInvoice with lineItems := items } }, st)

/-- Section `// VAT Detection (Parts AG)`. -/
def vatPhase (vendor rawText : String) (simulateHumanFeedback : Bool)
    (now : String) (rs : InvoiceRunResult × Stores) : InvoiceRunResult × Stores :=
  let (r, st) := rs
  if detectVATIncluded vendor rawText then
    let r := { r with
      normalizedInvoice := { r.normalizedInvoice with pricesIncludeVAT := true }
      auditTrail := r.auditTrail ++
        [audit .detect now ("VAT-included detected")] }
    let vatMem := getCorrectionMemory st.correctionMemory "VAT_INCLUDED_IN_TOTAL"
    let r :=
      match vatMem with
      | some m =>
        if m.confidence ≥ 3/5 then
          { r with
            proposedCorrections := r.proposedCorrections ++
              ["Recompute tax and gross from net"]
            auditTrail := r.auditTrail ++
              [audit .apply now ("Auto-suggested: " ++ m.action)] }
        else
          { r with proposedCorrections := r.proposedCorrections ++
              ["Recompute tax and gross from net (needs review)"] }
      | none =>
        { r with proposedCorrections := r.proposedCorrections ++
            ["Recompute tax and gross from net (needs review)"] }
    if simulateHumanFeedback then
      ({ r with memoryUpdates := r.memoryUpdates ++
          ["Updated Correction Memory for VAT_INCLUDED_IN_TOTAL"] },
       { st with
         correctionMemory := rememberCorrectionApproval st.correctionMemory
           "VAT_INCLUDED_IN_TOTAL" "Totals already include VAT"
           "Recompute tax and gross from net" now
         resolutionMemory := recordApproval st.resolutionMemory
           ("VENDOR:" ++ vendor ++ ":vat") now })
    else (r, st)
  else (r, st)

/-- Section `// Currency Inference` (guarded by `if (!currency)`). -/
def currencyPhase (vendor : String) (currency : Option String) (rawText : String)
    (simulateHumanFeedback : Bool) (now : String)
    (rs : InvoiceRunResult × Stores) : InvoiceRunResult × Stores :=
  let (r, st) := rs
  if jsStrTruthy currency then (r, st)
  else
    match inferCurrencyFromRawText rawText with
    | some inferred =>
      let r := { r with
        normalizedInvoice := { r.normalizedInvoice with currency := some inferred }
        auditTrail := r.auditTrail ++
          [audit .detect now ("Currency inferred: " ++ inferred)]
        proposedCorrections := r.proposedCorrections ++
          ["Set currency = " ++ inferred] }
      if simulateHumanFeedback then
        ({ r with memoryUpdates := r.memoryUpdates ++
            ["Updated Correction Memory for CURRENCY_FROM_RAWTEXT"] },
         { st with
           correctionMemory := rememberCorrectionApproval st.correctionMemory
             "CURRENCY_FROM_RAWTEXT" "Currency inferred from rawText"
             ("Set currency = " ++ inferred) now
           resolutionMemory := recordApproval st.resolutionMemory
             ("VENDOR:" ++ vendor ++ ":currency") now })
      else (r, st)
    | none => (r, st)

/-- Sections `// Recall` and `// Decision`: vendor recall, the two threshold
tests (`THRESHOLD = 0.6`), and the `decide` audit entry. -/
def recallDecidePhase (vendor : String) (now : String)
    (rs : InvoiceRunResult × Stores) : InvoiceRunResult × Stores :=
  let (r, st) := rs
  let vendorMem := getVendorMemory st.vendorMemory vendor
  let vendorConfidence : ℚ :=
    match vendorMem with
    | some m => m.confidence
    | none => 0
  let r := { r with auditTrail := r.auditTrail ++
    [audit .recall now
      (match vendorMem with
       | some _ => "Vendor Memory: confidence=" ++ toString vendorConfidence
       | none => "No Vendor Memory for " ++ vendor)] }
  let correctionMem := getCorrectionMemory st.correctionMemory "QTY_MISMATCH_USE_DN_QTY"
  let r :=
    match vendorMem with
    | some m =>
      if vendorConfidence ≥ 3/5 then
        { r with
          normalizedInvoice :=
            { r.normalizedInvoice with serviceDateLabel := some m.serviceDateLabel }
          auditTrail := r.auditTrail ++
            [audit .apply now ("Auto-applied serviceDateLabel=" ++ m.serviceDateLabel)] }
      else r
    | none => r
  let r :=
    match correctionMem with
    | some m =>
      if m.confidence ≥ 3/5 then
        { r with proposedCorrections := r.proposedCorrections ++ [m.action] }
      else r
    | none => r
  let r :=
    match vendorMem with
    | some _ =>
      if vendorConfidence ≥ 3/5 then
        { r with requiresHumanReview := false
                 reasoning := "All actions applied with high confidence."
                 confidenceScore := vendorConfidence }
      else
        { r with requiresHumanReview := true
                 reasoning := "Confidence below threshold or missing memory."
                 confidenceScore := vendorConfidence }
    | none =>
      { r with requiresHumanReview := true
               reasoning := "Confidence below threshold or missing memory." }
  ({ r with auditTrail := r.auditTrail ++
      [audit .decide now ("requiresHumanReview=" ++ toString r.requiresHumanReview)] }, st)

/-- Section `// Learning`. -/
def learnPhase (vendor : String) (simulateHumanFeedback : Bool) (now : String)
    (rs : InvoiceRunResult × Stores) : InvoiceRunResult × Stores :=
  let (r, st) := rs
  if simulateHumanFeedback && r.requiresHumanReview then
    let st := { st with vendorMemory := (
      rememberVendorCorrection st.vendorMemory vendor "Leistungsdatum" ) }
    let r := { r with memoryUpdates := r.memoryUpdates ++
      ["Updated Vendor Memory for " ++ vendor] }
    let st := { st with correctionMemory := (
      rememberCorrectionApproval st.correctionMemory "QTY_MISMATCH_USE_DN_QTY"
        "Quantity Mismatch" "Use Delivery Note Quantity" now ) }
    let st := { st with resolutionMemory := (
      recordApproval st.resolutionMemory ("VENDOR:" ++ vendor ++ ":serviceDateLabel") now ) }
    ({ r with auditTrail := r.auditTrail ++
        [audit .learn now ("Human Feedback: Approved")] },
     st)
  else if !r.requiresHumanReview then
    ({ r with memoryUpdates := r.memoryUpdates ++ ["Recorded System Success"] },
     { st with resolutionMemory := (
        recordApproval st.resolutionMemory ("VENDOR:" ++ vendor ++ ":serviceDateLabel") now ) })
  else (r, st)

/-- Phases of `processInvoice` after the duplicate check, in source order:
PO matching, Skonto, freight SKU mapping, VAT, currency, recall + decision,
learning. -/
def mainPhases (purchaseOrders : List PurchaseOrder) (vendor : String)
    (existingPO : Option String) (lineItems : List LineItem)
    (rawText : String) (currency : Option String)
    (simulateHumanFeedback : Bool) (now : String)
    (rs : InvoiceRunResult × Stores) : InvoiceRunResult × Stores :=
  let rs := poMatchPhase purchaseOrders vendor existingPO lineItems
    simulateHumanFeedback now rs
  let rs := skontoPhase vendor rawText simulateHumanFeedback now rs
  let rs := skuMapPhase vendor simulateHumanFeedback now rs
  let rs := vatPhase vendor rawText simulateHumanFeedback now rs
  let rs := currencyPhase vendor currency rawText simulateHumanFeedback now rs
  let rs := recallDecidePhase vendor now rs
  learnPhase vendor simulateHumanFeedback now rs

/-- Source `processInvoice` from index.ts (full pipeline). -/
def processInvoice (purchaseOrders : List PurchaseOrder)
    (invoice : ExtractedInvoice) (simulateHumanFeedback : Bool) (now : String)
    (st : Stores) : InvoiceRunResult × Stores :=
  let vendor := invoice.vendor
  let invoiceNumber := invoice.fields.invoiceNumber
  let invoiceDate := invoice.fields.invoiceDate
  let r := initResult invoice
  let r := { r with auditTrail := r.auditTrail ++
    [audit .ingest now ("Loaded invoice " ++ invoice.invoiceId)] }
  let (dupMem, isDup, seen) :=
    checkAndRecordInvoice st.duplicateMemory vendor invoiceNumber invoiceDate now
  let st := { st with duplicateMemory := dupMem }
  if isDup then
    ({ r with
       reasoning := "Duplicate invoice (Seen " ++ toString seen ++ " times)"
       auditTrail := r.auditTrail ++
         [audit .duplicate_check now ("Duplicate. seenCount=" ++ toString seen)] }, st)
  else
    let r := { r with auditTrail := r.auditTrail ++
      [audit .duplicate_check now ("Unique invoice.")] }
    mainPhases purchaseOrders vendor invoice.fields.poNumber
      invoice.fields.lineItems invoice.rawText invoice.fields.currency
      simulateHumanFeedback now (r, st)

end Engine1

/-! ## Engine2: `processInvoice` of the end-to-end demo (the second index.ts
variant: no detectors, four numbered phases). -/

namespace Engine2

structure NormalizedInvoice where
  vendor : String
  description : String
  invoiceNumber : String
  invoiceDate : String
  serviceDateLabel : Option String
deriving DecidableEq

structure InvoiceRunResult where
  normalizedInvoice : NormalizedInvoice
  proposedCorrections : List String
  requiresHumanReview : Bool
  reasoning : String
  confidenceScore : ℚ
  memoryUpdates : List String
  auditTrail : List AuditEntry
deriving DecidableEq

/-- Source `processInvoice` from the demo variant of index.ts. -/
def processInvoice (vendor invoiceNumber invoiceDate description : String)
    (simulateHumanFeedback : Bool) (now : String) (st : Stores) :
    InvoiceRunResult × Stores :=
  let r : InvoiceRunResult :=
    { normalizedInvoice :=
        { vendor := vendor, invoiceNumber := invoiceNumber,
          invoiceDate := invoiceDate, description := description,
          serviceDateLabel := none }
      proposedCorrections := []
      requiresHumanReview := true
      reasoning := ""
      confidenceScore := 0
      memoryUpdates := []
      auditTrail := [] }
  -- --- 1. Duplicate Check ---
  let (dupMem, isDup, seen) :=
    checkAndRecordInvoice st.duplicateMemory vendor invoiceNumber invoiceDate now
  let st := { st with duplicateMemory := dupMem }
  if isDup then
    ({ r with
       requiresHumanReview := true
       reasoning := "Duplicate invoice detected (Seen " ++ toString seen ++ " times)"
       auditTrail := r.auditTrail ++
         [audit .duplicate_check now ("Duplicate key found. seenCount=" ++ toString seen)] }, st)
  else
    let r := { r with auditTrail := r.auditTrail ++
      [audit .duplicate_check now ("Invoice is unique. Recorded in Duplicate Memory.")] }
    -- --- 2. Recall Phase ---
    let vendorMem := getVendorMemory st.vendorMemory vendor
    let vendorConfidence : ℚ :=
      match vendorMem with
      | some m => m.confidence
      | none => 0
    let r := { r with auditTrail := r.auditTrail ++
      [audit .recall now
        (match vendorMem with
         | some m => "Vendor Memory retrieved: label=" ++ m.serviceDateLabel ++
             ", confidence=" ++ toString vendorConfidence
         | none => "No Vendor Memory found for " ++ vendor)] }
    let correctionMem := getCorrectionMemory st.correctionMemory "QTY_MISMATCH_USE_DN_QTY"
    let correctionConfidence : ℚ :=
      match correctionMem with
      | some m => m.confidence
      | none => 0
    let r := { r with auditTrail := r.auditTrail ++
      [audit .recall now
        (match correctionMem with
         | some _ => "Correction Memory retrieved: pattern=QTY_MISMATCH_USE_DN_QTY, confidence="
             ++ toString correctionConfidence
         | none => "No Correction Memory found for pattern QTY_MISMATCH_USE_DN_QTY")] }
    -- --- 3. Decision Phase --- (VENDOR_THRESHOLD = CORRECTION_THRESHOLD = 0.6)
    let r :=
      match vendorMem with
      | some m =>
        if vendorConfidence ≥ 3/5 then
          { r with
            normalizedInvoice :=
              { r.normalizedInvoice with serviceDateLabel := some m.serviceDateLabel }
            auditTrail := r.auditTrail ++
              [audit .apply now ("Auto-applied serviceDateLabel=" ++ m.serviceDateLabel)] }
        else r
      | none => r
    let r :=
      match correctionMem with
      | some m =>
        if correctionConfidence ≥ 3/5 then
          { r with
            proposedCorrections := r.proposedCorrections ++ [m.action]
            auditTrail := r.auditTrail ++
              [audit .apply now ("Auto-suggested correction: " ++ m.action)] }
        else r
      | none => r
    let r :=
      if vendorConfidence ≥ 3/5 ∧ (correctionConfidence ≥ 3/5 ∨ correctionMem = none) then
        match vendorMem with
        | some _ =>
          { r with requiresHumanReview := false
                   reasoning := "All actions applied with high confidence."
                   confidenceScore :=
                     min vendorConfidence
                       (if correctionConfidence = 0 then 1 else correctionConfidence) }
        | none =>
          { r with requiresHumanReview := true
                   reasoning := "New vendor - requires setup." }
      else
        match vendorMem with
        | some _ =>
          { r with requiresHumanReview := true
                   reasoning := "Confidence below threshold or missing memory."
                   confidenceScore := vendorConfidence }
        | none =>
          { r with requiresHumanReview := true
                   reasoning := "Confidence below threshold or missing memory." }
    let r := { r with auditTrail := r.auditTrail ++
      [audit .decide now ("Decision: requiresHumanReview=" ++ toString r.requiresHumanReview ++ ", reasoning=" ++ r.reasoning)] }
    -- --- 4. Learning Phase (Simulated) ---
    if simulateHumanFeedback then
      if r.requiresHumanReview then
        let r := { r with auditTrail := r.auditTrail ++
          [audit .learn now ("Human Feedback: Approved correct values.")] }
        let st := { st with vendorMemory := (
          rememberVendorCorrection st.vendorMemory vendor "Leistungsdatum" ) }
        let r := { r with memoryUpdates := r.memoryUpdates ++
          ["Updated Vendor Memory for " ++ vendor] }
        let st := { st with correctionMemory := (
          rememberCorrectionApproval st.correctionMemory "QTY_MISMATCH_USE_DN_QTY"
            "Quantity Mismatch" "Use Delivery Note Quantity" now ) }
        let r := { r with memoryUpdates := r.memoryUpdates ++
          ["Updated Correction Memory for QTY_MISMATCH_USE_DN_QTY"] }
        let memId := "VENDOR:" ++ vendor ++ ":serviceDateLabel"
        let st := { st with resolutionMemory := (
          recordApproval st.resolutionMemory memId now ) }
        ({ r with memoryUpdates := r.memoryUpdates ++
            ["Recorded Approval for " ++ memId] }, st)
      else
        let memId := "VENDOR:" ++ vendor ++ ":serviceDateLabel"
        ({ r with memoryUpdates := r.memoryUpdates ++
            ["Recorded System Success for " ++ memId] },
         { st with resolutionMemory := (
            recordApproval st.resolutionMemory memId now ) })
    else (r, st)

end Engine2

/-! ## Operation sequences for the reinforce/decay invariant (C3) -/

/-- An abstract reinforce/decay operation on the pattern store: the two ways
correctionMemory.ts lets confidence change. -/
inductive CorrectionOp where
  | approve (description action timestamp : String)
  | reject (timestamp : String)

def applyCorrectionOp (memory : ObjMap CorrectionData) :
    String × CorrectionOp → ObjMap CorrectionData
  | (patternId, .approve d a ts) =>
    rememberCorrectionApproval memory patternId d a ts
  | (patternId, .reject ts) => rememberCorrectionRejection memory patternId ts

/-- A finite sequence of keyed reinforce/decay calls against the pattern
store, applied in order. -/
def runCorrectionOps (ops : List (String × CorrectionOp))
    (memory : ObjMap CorrectionData) : ObjMap CorrectionData :=
  ops.foldl applyCorrectionOp memory

/-- A finite sequence of `rememberVendorCorrection` calls (the only way the
vendor store's confidence changes), applied in order. -/
def runVendorOps (ops : List (String × String)) (memory : ObjMap VendorData) :
    ObjMap VendorData :=
  ops.foldl (fun m op => rememberVendorCorrection m op.1 op.2) memory

/-- Confidence values reachable by the stores: an exact multiple of one tenth
between 0.0 and 1.0. -/
def confWF (c : ℚ) : Prop := ∃ k : ℕ, k ≤ 10 ∧ c = (k : ℚ) / 10

/-- Well-formedness of a pattern store: every stored confidence is a tenth in
`[0, 1]`. -/
def correctionStoreWF (memory : ObjMap CorrectionData) : Prop :=
  ∀ k d, memory.find k = some d → confWF d.confidence

/-- Well-formedness of a vendor store. -/
def vendorStoreWF (memory : ObjMap VendorData) : Prop :=
  ∀ k d, memory.find k = some d → confWF d.confidence

/-! ## Iterated duplicate checks (C5) -/

/-- The duplicate store after `n` calls of `checkAndRecordInvoice` with the
same `(vendor, invoiceNumber, invoiceDate)` triple, starting from the empty
store. -/
def iterateCheck (vendor invoiceNumber invoiceDate timestamp : String) :
    ℕ → ObjMap DuplicateEntry
  | 0 => []
  | n + 1 =>
    (checkAndRecordInvoice (iterateCheck vendor invoiceNumber invoiceDate timestamp n)
      vendor invoiceNumber invoiceDate timestamp).1

/-- The `{ isDuplicate, seenCount }` answer of the `n`-th call (`n ≥ 1`). -/
def nthCheck (vendor invoiceNumber invoiceDate timestamp : String) (n : ℕ) :
    Bool × ℕ :=
  (checkAndRecordInvoice (iterateCheck vendor invoiceNumber invoiceDate timestamp (n - 1))
    vendor invoiceNumber invoiceDate timestamp).2

/-! # Theorems

First the shared lemma library: association-list lookup, the rounding
bridge, and the tenths representation of reachable confidences. -/

@[simp]
theorem ObjMap.find_set {α : Type} (m : ObjMap α) (k : String) (v : α)
    (k' : String) :
    (m.set k v).find k' = if k = k' then some v else m.find k' := by
  induction m with
  | nil => simp only [ObjMap.set, ObjMap.find]
  | cons hd tl ih =>
    obtain ⟨a, b⟩ := hd
    simp only [ObjMap.set, ObjMap.find]
    split_ifs with h1 h2 h3 <;> simp_all [ObjMap.find]

theorem rat_floor_eq_intFloor (a : ℚ) : a.floor = ⌊a⌋ := by
  rw [Rat.floor_def', ← Rat.floor_def]

theorem jsRound_eq (q : ℚ) : jsRound q = ⌊q + 1/2⌋ := by
  rw [jsRound, rat_floor_eq_intFloor]

theorem jsRound_intCast (m : ℤ) : jsRound (m : ℚ) = m := by
  rw [jsRound_eq, add_comm, Int.floor_add_int]
  norm_num

theorem jsRound_natCast (m : ℕ) : jsRound (m : ℚ) = m := by
  have := jsRound_intCast (m : ℤ)
  push_cast at this
  exact_mod_cast this


theorem jsRound_zero : jsRound 0 = 0 := by
  rw [jsRound_eq]
  rw [show ((0:ℚ) + 1/2) = 1/2 by norm_num]
  rw [Int.floor_eq_zero_iff]
  constructor <;> norm_num

/-- Evaluating `reinforceConf` on a reachable confidence `k/10` gives exactly
`min(10, k+1)/10`. -/
theorem reinforceConf_tenths (k : ℕ) (hk : k ≤ 10) :
    reinforceConf ((k : ℚ) / 10) = ((min 10 (k + 1) : ℕ) : ℚ) / 10 := by
  unfold reinforceConf
  have hstep : (k : ℚ) / 10 + 1 / 10 = ((k + 1 : ℕ) : ℚ) / 10 := by
    push_cast
    ring
  rw [hstep]
  by_cases h : ((k + 1 : ℕ) : ℚ) / 10 > 1
  · have hgt : (10 : ℚ) < ((k + 1 : ℕ) : ℚ) := by
      have := (lt_div_iff₀ (show (0:ℚ) < 10 by norm_num)).mp h
      linarith
    have hk10 : 10 < k + 1 := by exact_mod_cast hgt
    have hk' : k = 10 := by omega
    subst hk'
    simp only [if_pos h, one_mul]
    rw [show ((10:ℚ)) = ((10:ℕ):ℚ) by norm_num, jsRound_natCast]
    norm_num
  · simp only [if_neg h]
    have hmul : ((k + 1 : ℕ) : ℚ) / 10 * 10 = ((k + 1 : ℕ) : ℚ) := by ring
    rw [hmul, jsRound_natCast]
    have h10 : ((k + 1 : ℕ) : ℚ) ≤ 10 := by
      by_contra hc
      push_neg at hc
      exact h (by rw [gt_iff_lt, lt_div_iff₀ (show (0:ℚ) < 10 by norm_num)]; linarith)
    have hle : k + 1 ≤ 10 := by exact_mod_cast h10
    have hmin : min 10 (k + 1) = k + 1 := by omega
    rw [hmin]
    simp only [Int.cast_natCast]

/-- Evaluating `decayConf` on a reachable confidence `k/10` gives exactly `(k - 2)/10`
(truncated subtraction). -/
theorem decayConf_tenths (k : ℕ) :
    decayConf ((k : ℚ) / 10) = ((k - 2 : ℕ) : ℚ) / 10 := by
  unfold decayConf
  by_cases h : (k : ℚ) / 10 - 2 / 10 < 0
  · have hlt : (k : ℚ) < 2 := by linarith [(div_lt_iff₀ (show (0:ℚ) < 10 by norm_num)).mp (by linarith : (k : ℚ) / 10 < 2 / 10)]
    have hk2 : k < 2 := by exact_mod_cast hlt
    have hz : k - 2 = 0 := by omega
    simp only [if_pos h, zero_mul, hz, jsRound_zero]
    norm_num
  · push_neg at h
    have hge : (2 : ℚ) ≤ (k : ℚ) := by
      by_contra hc
      push_neg at hc
      have : (k : ℚ) / 10 - 2 / 10 < 0 := by linarith
      linarith
    have hk2 : 2 ≤ k := by exact_mod_cast hge
    simp only [if_neg (not_lt.mpr h)]
    have hstep : ((k : ℚ) / 10 - 2 / 10) * 10 = ((k - 2 : ℕ) : ℚ) := by
      rw [Nat.cast_sub hk2]
      push_cast
      ring
    rw [hstep, jsRound_natCast]
    simp only [Int.cast_natCast]

theorem confWF_init : confWF (1/2 : ℚ) :=
  ⟨5, by norm_num, by norm_num⟩

theorem confWF_reinforce {c : ℚ} (h : confWF c) : confWF (reinforceConf c) := by
  obtain ⟨k, hk, rfl⟩ := h
  rw [reinforceConf_tenths k hk]
  exact ⟨min 10 (k + 1), by omega, rfl⟩

theorem confWF_decay {c : ℚ} (h : confWF c) : confWF (decayConf c) := by
  obtain ⟨k, hk, rfl⟩ := h
  rw [decayConf_tenths k]
  exact ⟨k - 2, by omega, rfl⟩

theorem confWF_bounds {c : ℚ} (h : confWF c) : 0 ≤ c ∧ c ≤ 1 := by
  obtain ⟨k, hk, rfl⟩ := h
  have hk' : (k : ℚ) ≤ 10 := by exact_mod_cast hk
  constructor
  · positivity
  · rw [div_le_one (by norm_num)]
    exact hk'

theorem confWF_reinforce_mono {c : ℚ} (h : confWF c) : c ≤ reinforceConf c := by
  obtain ⟨k, hk, rfl⟩ := h
  rw [reinforceConf_tenths k hk]
  have hle : k ≤ min 10 (k + 1) := by omega
  have hle' : (k : ℚ) ≤ ((min 10 (k + 1) : ℕ) : ℚ) := by exact_mod_cast hle
  linarith

/-- The spec states the update as `min(1.0, round(confidence + 0.1, 1))`;
the code computes `round(min(1.0, confidence + 0.1) * 10) / 10`. The two
agree on every rational input. -/
theorem reinforceConf_eq_claim (c : ℚ) :
    reinforceConf c = min 1 ((jsRound ((c + 1/10) * 10) : ℚ) / 10) := by
  unfold reinforceConf
  by_cases h : c + 1/10 > 1
  · simp only [if_pos h, one_mul]
    have hfl : (10 : ℤ) ≤ jsRound ((c + 1/10) * 10) := by
      rw [jsRound_eq, Int.le_floor]
      push_cast
      nlinarith
    have hfl' : (10 : ℚ) ≤ (jsRound ((c + 1/10) * 10) : ℚ) := by exact_mod_cast hfl
    have hr : (1 : ℚ) ≤ (jsRound ((c + 1/10) * 10) : ℚ) / 10 := by
      rw [le_div_iff₀ (show (0:ℚ) < 10 by norm_num)]
      linarith
    rw [min_eq_left hr]
    rw [show ((10:ℚ)) = ((10:ℕ):ℚ) by norm_num, jsRound_natCast]
    norm_num
  · simp only [if_neg h]
    push_neg at h
    have hub : (jsRound ((c + 1/10) * 10) : ℚ) ≤ 21/2 := by
      rw [jsRound_eq]
      calc ((⌊(c + 1/10) * 10 + 1/2⌋ : ℤ) : ℚ) ≤ (c + 1/10) * 10 + 1/2 :=
            Int.floor_le _
        _ ≤ 21/2 := by nlinarith
    have hint : jsRound ((c + 1/10) * 10) ≤ 10 := by
      have h11 : ((jsRound ((c + 1/10) * 10) : ℤ) : ℚ) < 11 := lt_of_le_of_lt hub (by norm_num)
      have : jsRound ((c + 1/10) * 10) < 11 := by exact_mod_cast h11
      omega
    have hr : (jsRound ((c + 1/10) * 10) : ℚ) / 10 ≤ 1 := by
      rw [div_le_one (show (0:ℚ) < 10 by norm_num)]
      exact_mod_cast hint
    rw [min_eq_right hr]

/-- The spec states the decay as `max(0.0, round(confidence - 0.2, 1))`;
the code computes `round(max(0.0, confidence - 0.2) * 10) / 10`. The two
agree on every rational input. -/
theorem decayConf_eq_claim (c : ℚ) :
    decayConf c = max 0 ((jsRound ((c - 2/10) * 10) : ℚ) / 10) := by
  unfold decayConf
  by_cases h : c - 2/10 < 0
  · simp only [if_pos h, zero_mul, jsRound_zero]
    have hub : (jsRound ((c - 2/10) * 10) : ℚ) ≤ 1/2 := by
      rw [jsRound_eq]
      calc ((⌊(c - 2/10) * 10 + 1/2⌋ : ℤ) : ℚ) ≤ (c - 2/10) * 10 + 1/2 :=
            Int.floor_le _
        _ ≤ 1/2 := by nlinarith
    have hint : jsRound ((c - 2/10) * 10) ≤ 0 := by
      have h1 : ((jsRound ((c - 2/10) * 10) : ℤ) : ℚ) < 1 := lt_of_le_of_lt hub (by norm_num)
      have : jsRound ((c - 2/10) * 10) < 1 := by exact_mod_cast h1
      omega
    have hr : (jsRound ((c - 2/10) * 10) : ℚ) / 10 ≤ 0 :=
      div_nonpos_of_nonpos_of_nonneg (by exact_mod_cast hint) (by norm_num)
    rw [max_eq_left hr]
    norm_num
  · simp only [if_neg h]
    push_neg at h
    have hlb : (0 : ℤ) ≤ jsRound ((c - 2/10) * 10) := by
      rw [jsRound_eq, Int.le_floor]
      push_cast
      nlinarith
    have hr : (0 : ℚ) ≤ (jsRound ((c - 2/10) * 10) : ℚ) / 10 :=
      div_nonneg (by exact_mod_cast hlb) (by norm_num)
    rw [max_eq_right hr]

/-! ## Duplicate-check unfolding lemmas -/

theorem checkAndRecord_present (m : ObjMap DuplicateEntry)
    (v i d ts : String) (e : DuplicateEntry)
    (h : m.find (duplicateKey v i d) = some e) :
    checkAndRecordInvoice m v i d ts =
      (m.set (duplicateKey v i d) { e with seenCount := e.seenCount + 1 },
       true, e.seenCount + 1) := by
  unfold checkAndRecordInvoice
  simp only [h]

theorem checkAndRecord_absent (m : ObjMap DuplicateEntry)
    (v i d ts : String)
    (h : m.find (duplicateKey v i d) = none) :
    checkAndRecordInvoice m v i d ts =
      (m.set (duplicateKey v i d)
        { duplicateKey := duplicateKey v i d, vendor := v, invoiceNumber := i,
          invoiceDate := d, firstSeenAt := ts, seenCount := 1 },
       false, 1) := by
  unfold checkAndRecordInvoice
  simp only [h]

/-- On a key already in the duplicate ledger, the full engine logs `ingest`
then `duplicate_check`, names the repeat count, returns early, and only the
duplicate ledger changes. -/
theorem Engine1.full_run_dup (purchaseOrders : List PurchaseOrder)
    (inv : ExtractedInvoice) (fb : Bool) (now : String) (st : Stores)
    (e : DuplicateEntry)
    (h : st.duplicateMemory.find
        (duplicateKey inv.vendor inv.fields.invoiceNumber inv.fields.invoiceDate) = some e) :
    Engine1.processInvoice purchaseOrders inv fb now st =
      ({ Engine1.initResult inv with
          reasoning := "Duplicate invoice (Seen " ++ toString (e.seenCount + 1) ++ " times)"
          auditTrail := (
            [audit .ingest now ("Loaded invoice " ++ inv.invoiceId),
             audit .duplicate_check now
               ("Duplicate. seenCount=" ++ toString (e.seenCount + 1))]) },
       { st with duplicateMemory := (st.duplicateMemory.set
           (duplicateKey inv.vendor inv.fields.invoiceNumber inv.fields.invoiceDate)
           { e with seenCount := e.seenCount + 1 }) }) := by
  unfold Engine1.processInvoice
  simp [checkAndRecord_present _ _ _ _ _ e h, Engine1.initResult]

/-- On a key already in the duplicate ledger, the demo engine produces a
single `duplicate_check` audit entry, keeps review required, and only the
duplicate ledger changes. -/
theorem Engine2.demo_run_dup (vendor invoiceNumber invoiceDate description : String)
    (fb : Bool) (now : String) (st : Stores) (e : DuplicateEntry)
    (h : st.duplicateMemory.find (duplicateKey vendor invoiceNumber invoiceDate) = some e) :
    Engine2.processInvoice vendor invoiceNumber invoiceDate description fb now st =
      ({ normalizedInvoice :=
           { vendor := vendor, invoiceNumber := invoiceNumber,
             invoiceDate := invoiceDate, description := description,
             serviceDateLabel := none }
         proposedCorrections := []
         requiresHumanReview := true
         reasoning := "Duplicate invoice detected (Seen " ++ toString (e.seenCount + 1) ++ " times)"
         confidenceScore := 0
         memoryUpdates := []
         auditTrail := (
           [audit .duplicate_check now
             ("Duplicate key found. seenCount=" ++ toString (e.seenCount + 1))]) },
       { st with duplicateMemory := (st.duplicateMemory.set
           (duplicateKey vendor invoiceNumber invoiceDate)
           { e with seenCount := e.seenCount + 1 }) }) := by
  unfold Engine2.processInvoice
  simp [checkAndRecord_present _ _ _ _ _ e h]

/-! ## Engine frame lemmas: without human feedback, the detector phases
touch neither the stores nor the decision-relevant result fields. -/

theorem Engine1.poMatchPhase_noFeedback (pos : List PurchaseOrder) (vendor : String)
    (existingPO : Option String) (lineItems : List LineItem) (now : String)
    (rs : Engine1.InvoiceRunResult × Stores) :
    (Engine1.poMatchPhase pos vendor existingPO lineItems false now rs).2 = rs.2 ∧
    (Engine1.poMatchPhase pos vendor existingPO lineItems false now rs).1.requiresHumanReview = rs.1.requiresHumanReview ∧
    (Engine1.poMatchPhase pos vendor existingPO lineItems false now rs).1.normalizedInvoice.serviceDateLabel = rs.1.normalizedInvoice.serviceDateLabel ∧
    (Engine1.poMatchPhase pos vendor existingPO lineItems false now rs).1.confidenceScore = rs.1.confidenceScore := by
  obtain ⟨r, st⟩ := rs
  simp only [Engine1.poMatchPhase]
  repeat' split
  all_goals simp_all

theorem Engine1.skontoPhase_noFeedback (vendor rawText now : String)
    (rs : Engine1.InvoiceRunResult × Stores) :
    (Engine1.skontoPhase vendor rawText false now rs).2 = rs.2 ∧
    (Engine1.skontoPhase vendor rawText false now rs).1.requiresHumanReview = rs.1.requiresHumanReview ∧
    (Engine1.skontoPhase vendor rawText false now rs).1.normalizedInvoice.serviceDateLabel = rs.1.normalizedInvoice.serviceDateLabel ∧
    (Engine1.skontoPhase vendor rawText false now rs).1.confidenceScore = rs.1.confidenceScore := by
  obtain ⟨r, st⟩ := rs
  simp only [Engine1.skontoPhase]
  repeat' split
  all_goals simp_all

theorem Engine1.skuMapStep_noFeedback (vendor now : String) (li : LineItem)
    (rs : Engine1.InvoiceRunResult × Stores) :
    (Engine1.skuMapStep vendor false now li rs).2.2 = rs.2 ∧
    (Engine1.skuMapStep vendor false now li rs).2.1.requiresHumanReview = rs.1.requiresHumanReview ∧
    (Engine1.skuMapStep vendor false now li rs).2.1.normalizedInvoice.serviceDateLabel = rs.1.normalizedInvoice.serviceDateLabel ∧
    (Engine1.skuMapStep vendor false now li rs).2.1.confidenceScore = rs.1.confidenceScore := by
  obtain ⟨r, st⟩ := rs
  simp only [Engine1.skuMapStep]
  repeat' split
  all_goals simp_all

theorem Engine1.skuMapGo_noFeedback (vendor now : String) :
    ∀ (items : List LineItem) (rs : Engine1.InvoiceRunResult × Stores),
    (Engine1.skuMapGo vendor false now items rs).2.2 = rs.2 ∧
    (Engine1.skuMapGo vendor false now items rs).2.1.requiresHumanReview = rs.1.requiresHumanReview ∧
    (Engine1.skuMapGo vendor false now items rs).2.1.normalizedInvoice.serviceDateLabel = rs.1.normalizedInvoice.serviceDateLabel ∧
    (Engine1.skuMapGo vendor false now items rs).2.1.confidenceScore = rs.1.confidenceScore := by
  intro items
  induction items with
  | nil => intro rs; simp [Engine1.skuMapGo]
  | cons li rest ih =>
    intro rs
    have hstep := Engine1.skuMapStep_noFeedback vendor now li rs
    simp only [Engine1.skuMapGo]
    rcases heq : Engine1.skuMapStep vendor false now li rs with ⟨li', acc'⟩
    rw [heq] at hstep
    have hrec := ih acc'
    rcases heq2 : Engine1.skuMapGo vendor false now rest acc' with ⟨rest', acc''⟩
    rw [heq2] at hrec
    simp at hstep hrec
    simp [hstep, hrec]

theorem Engine1.skuMapPhase_noFeedback (vendor now : String)
    (rs : Engine1.InvoiceRunResult × Stores) :
    (Engine1.skuMapPhase vendor false now rs).2 = rs.2 ∧
    (Engine1.skuMapPhase vendor false now rs).1.requiresHumanReview = rs.1.requiresHumanReview ∧
    (Engine1.skuMapPhase vendor false now rs).1.normalizedInvoice.serviceDateLabel = rs.1.normalizedInvoice.serviceDateLabel ∧
    (Engine1.skuMapPhase vendor false now rs).1.confidenceScore = rs.1.confidenceScore := by
  have hgo := Engine1.skuMapGo_noFeedback vendor now rs.1.normalizedInvoice.lineItems rs
  simp only [Engine1.skuMapPhase]
  rcases heq : Engine1.skuMapGo vendor false now rs.1.normalizedInvoice.lineItems rs with ⟨items, r', st'⟩
  rw [heq] at hgo
  simp at hgo
  simp [hgo]

theorem Engine1.vatPhase_noFeedback (vendor rawText now : String)
    (rs : Engine1.InvoiceRunResult × Stores) :
    (Engine1.vatPhase vendor rawText false now rs).2 = rs.2 ∧
    (Engine1.vatPhase vendor rawText false now rs).1.requiresHumanReview = rs.1.requiresHumanReview ∧
    (Engine1.vatPhase vendor rawText false now rs).1.normalizedInvoice.serviceDateLabel = rs.1.normalizedInvoice.serviceDateLabel ∧
    (Engine1.vatPhase vendor rawText false now rs).1.confidenceScore = rs.1.confidenceScore := by
  obtain ⟨r, st⟩ := rs
  simp only [Engine1.vatPhase]
  repeat' split
  all_goals simp_all

theorem Engine1.currencyPhase_noFeedback (vendor : String) (currency : Option String)
    (rawText now : String) (rs : Engine1.InvoiceRunResult × Stores) :
    (Engine1.currencyPhase vendor currency rawText false now rs).2 = rs.2 ∧
    (Engine1.currencyPhase vendor currency rawText false now rs).1.requiresHumanReview = rs.1.requiresHumanReview ∧
    (Engine1.currencyPhase vendor currency rawText false now rs).1.normalizedInvoice.serviceDateLabel = rs.1.normalizedInvoice.serviceDateLabel ∧
    (Engine1.currencyPhase vendor currency rawText false now rs).1.confidenceScore = rs.1.confidenceScore := by
  obtain ⟨r, st⟩ := rs
  simp only [Engine1.currencyPhase]
  repeat' split
  all_goals simp_all

set_option maxRecDepth 100000 in
theorem Engine1.recallDecidePhase_spec (vendor now : String)
    (rs : Engine1.InvoiceRunResult × Stores) :
    (Engine1.recallDecidePhase vendor now rs).2 = rs.2 ∧
    ((Engine1.recallDecidePhase vendor now rs).1.requiresHumanReview =
      !(vendorAbove rs.2.vendorMemory vendor)) ∧
    ((Engine1.recallDecidePhase vendor now rs).1.normalizedInvoice.serviceDateLabel =
      match getVendorMemory rs.2.vendorMemory vendor with
      | some m =>
        if m.confidence ≥ 3/5 then some m.serviceDateLabel
        else rs.1.normalizedInvoice.serviceDateLabel
      | none => rs.1.normalizedInvoice.serviceDateLabel) ∧
    ((Engine1.recallDecidePhase vendor now rs).1.confidenceScore =
      match getVendorMemory rs.2.vendorMemory vendor with
      | some m => m.confidence
      | none => rs.1.confidenceScore) := by
  obtain ⟨r, st⟩ := rs
  simp only [Engine1.recallDecidePhase, getVendorMemory, getCorrectionMemory]
  rcases hv : st.vendorMemory.find vendor with _ | m <;>
    rcases hc : st.correctionMemory.find "QTY_MISMATCH_USE_DN_QTY" with _ | cm
  · simp only [hv, hc]
    simp [vendorAbove, hv]
  · by_cases hcc : cm.confidence ≥ 3/5
    · simp only [hv, hc, if_pos hcc]
      simp [vendorAbove, hv]
    · simp only [hv, hc, if_neg hcc]
      simp [vendorAbove, hv]
  · by_cases hconf : m.confidence ≥ 3/5
    · simp only [hv, hc, if_pos hconf]
      simp [vendorAbove, hv, hconf]
    · simp only [hv, hc, if_neg hconf]
      simp [vendorAbove, hv, hconf]
  · by_cases hconf : m.confidence ≥ 3/5 <;> by_cases hcc : cm.confidence ≥ 3/5
    · simp only [hv, hc, if_pos hconf, if_pos hcc]
      simp [vendorAbove, hv, hconf]
    · simp only [hv, hc, if_pos hconf, if_neg hcc]
      simp [vendorAbove, hv, hconf]
    · simp only [hv, hc, if_neg hconf, if_pos hcc]
      simp [vendorAbove, hv, hconf]
    · simp only [hv, hc, if_neg hconf, if_neg hcc]
      simp [vendorAbove, hv, hconf]

theorem Engine1.learnPhase_noFeedback (vendor now : String)
    (rs : Engine1.InvoiceRunResult × Stores) :
    (Engine1.learnPhase vendor false now rs).1.requiresHumanReview = rs.1.requiresHumanReview ∧
    (Engine1.learnPhase vendor false now rs).1.normalizedInvoice.serviceDateLabel = rs.1.normalizedInvoice.serviceDateLabel ∧
    (Engine1.learnPhase vendor false now rs).1.confidenceScore = rs.1.confidenceScore ∧
    ((Engine1.learnPhase vendor false now rs).2 =
      if rs.1.requiresHumanReview then rs.2
      else { rs.2 with resolutionMemory := (recordApproval rs.2.resolutionMemory
        ("VENDOR:" ++ vendor ++ ":serviceDateLabel") now) }) := by
  obtain ⟨r, st⟩ := rs
  simp only [Engine1.learnPhase]
  repeat' split
  all_goals simp_all

theorem Engine1.mainPhases_noFeedback (purchaseOrders : List PurchaseOrder)
    (vendor : String) (existingPO : Option String) (lineItems : List LineItem)
    (rawText : String) (currency : Option String) (now : String)
    (rs : Engine1.InvoiceRunResult × Stores) :
    ((Engine1.mainPhases purchaseOrders vendor existingPO lineItems rawText currency false now rs).1.requiresHumanReview
        = !(vendorAbove rs.2.vendorMemory vendor)) ∧
    ((Engine1.mainPhases purchaseOrders vendor existingPO lineItems rawText currency false now rs).1.normalizedInvoice.serviceDateLabel =
      match getVendorMemory rs.2.vendorMemory vendor with
      | some m =>
        if m.confidence ≥ 3/5 then some m.serviceDateLabel
        else rs.1.normalizedInvoice.serviceDateLabel
      | none => rs.1.normalizedInvoice.serviceDateLabel) ∧
    ((Engine1.mainPhases purchaseOrders vendor existingPO lineItems rawText currency false now rs).1.confidenceScore =
      match getVendorMemory rs.2.vendorMemory vendor with
      | some m => m.confidence
      | none => rs.1.confidenceScore) ∧
    ((Engine1.mainPhases purchaseOrders vendor existingPO lineItems rawText currency false now rs).2 =
      if vendorAbove rs.2.vendorMemory vendor then
        { rs.2 with resolutionMemory := (recordApproval rs.2.resolutionMemory
            ("VENDOR:" ++ vendor ++ ":serviceDateLabel") now) }
      else rs.2) := by
  unfold Engine1.mainPhases
  set rs1 := Engine1.poMatchPhase purchaseOrders vendor existingPO lineItems false now rs with hrs1
  set rs2 := Engine1.skontoPhase vendor rawText false now rs1 with hrs2
  set rs3 := Engine1.skuMapPhase vendor false now rs2 with hrs3
  set rs4 := Engine1.vatPhase vendor rawText false now rs3 with hrs4
  set rs5 := Engine1.currencyPhase vendor currency rawText false now rs4 with hrs5
  set rs6 := Engine1.recallDecidePhase vendor now rs5 with hrs6
  obtain ⟨a1, a2, a3, a4⟩ := Engine1.poMatchPhase_noFeedback purchaseOrders vendor existingPO lineItems now rs
  obtain ⟨b1, b2, b3, b4⟩ := Engine1.skontoPhase_noFeedback vendor rawText now rs1
  obtain ⟨c1, c2, c3, c4⟩ := Engine1.skuMapPhase_noFeedback vendor now rs2
  obtain ⟨d1, d2, d3, d4⟩ := Engine1.vatPhase_noFeedback vendor rawText now rs3
  obtain ⟨e1, e2, e3, e4⟩ := Engine1.currencyPhase_noFeedback vendor currency rawText now rs4
  obtain ⟨f1, f2, f3, f4⟩ := Engine1.recallDecidePhase_spec vendor now rs5
  obtain ⟨g1, g2, g3, g4⟩ := Engine1.learnPhase_noFeedback vendor now rs6
  rw [← hrs1] at a1 a2 a3 a4
  rw [← hrs2] at b1 b2 b3 b4
  rw [← hrs3] at c1 c2 c3 c4
  rw [← hrs4] at d1 d2 d3 d4
  rw [← hrs5] at e1 e2 e3 e4
  rw [← hrs6] at f1 f2 f3 f4
  have hs5 : rs5.2 = rs.2 := by rw [e1, d1, c1, b1, a1]
  have hlab5 : rs5.1.normalizedInvoice.serviceDateLabel =
      rs.1.normalizedInvoice.serviceDateLabel := by
    rw [e3, d3, c3, b3, a3]
  have hconf5 : rs5.1.confidenceScore = rs.1.confidenceScore := by
    rw [e4, d4, c4, b4, a4]
  rw [hs5] at f2 f3 f4
  refine ⟨?_, ?_, ?_, ?_⟩
  · rw [g1, f2]
  · rw [g2, f3, hlab5]
  · rw [g3, f4, hconf5]
  · rw [g4, f2, f1, hs5]
    by_cases hok : vendorAbove rs.2.vendorMemory vendor <;> simp [hok]

theorem Engine1.processInvoice_noDup (purchaseOrders : List PurchaseOrder)
    (inv : ExtractedInvoice) (fb : Bool) (now : String) (st : Stores)
    (hdup : st.duplicateMemory.find
        (duplicateKey inv.vendor inv.fields.invoiceNumber inv.fields.invoiceDate) = none) :
    Engine1.processInvoice purchaseOrders inv fb now st =
      Engine1.mainPhases purchaseOrders inv.vendor inv.fields.poNumber
        inv.fields.lineItems inv.rawText inv.fields.currency fb now
        ({ Engine1.initResult inv with auditTrail := (
            [audit .ingest now ("Loaded invoice " ++ inv.invoiceId),
             audit .duplicate_check now "Unique invoice."]) },
         { st with duplicateMemory := (st.duplicateMemory.set
            (duplicateKey inv.vendor inv.fields.invoiceNumber inv.fields.invoiceDate)
            { duplicateKey := duplicateKey inv.vendor inv.fields.invoiceNumber inv.fields.invoiceDate,
              vendor := inv.vendor, invoiceNumber := inv.fields.invoiceNumber,
              invoiceDate := inv.fields.invoiceDate, firstSeenAt := now,
              seenCount := 1 }) }) := by
  unfold Engine1.processInvoice
  simp [checkAndRecord_absent _ _ _ _ _ hdup, Engine1.initResult]

theorem Engine1.full_run_noFeedback (purchaseOrders : List PurchaseOrder)
    (inv : ExtractedInvoice) (now : String) (st : Stores)
    (hdup : st.duplicateMemory.find
        (duplicateKey inv.vendor inv.fields.invoiceNumber inv.fields.invoiceDate) = none) :
    ((Engine1.processInvoice purchaseOrders inv false now st).1.requiresHumanReview =
       !(vendorAbove st.vendorMemory inv.vendor)) ∧
    ((Engine1.processInvoice purchaseOrders inv false now st).1.normalizedInvoice.serviceDateLabel =
       match getVendorMemory st.vendorMemory inv.vendor with
       | some m => if m.confidence ≥ 3/5 then some m.serviceDateLabel else none
       | none => none) ∧
    ((Engine1.processInvoice purchaseOrders inv false now st).1.confidenceScore =
       match getVendorMemory st.vendorMemory inv.vendor with
       | some m => m.confidence
       | none => 0) ∧
    ((Engine1.processInvoice purchaseOrders inv false now st).2.vendorMemory = st.vendorMemory) ∧
    ((Engine1.processInvoice purchaseOrders inv false now st).2.correctionMemory = st.correctionMemory) ∧
    ((Engine1.processInvoice purchaseOrders inv false now st).2.resolutionMemory =
       if vendorAbove st.vendorMemory inv.vendor then
         recordApproval st.resolutionMemory ("VENDOR:" ++ inv.vendor ++ ":serviceDateLabel") now
       else st.resolutionMemory) := by
  rw [Engine1.processInvoice_noDup purchaseOrders inv false now st hdup]
  obtain ⟨m1, m2, m3, m4⟩ := Engine1.mainPhases_noFeedback purchaseOrders inv.vendor
    inv.fields.poNumber inv.fields.lineItems inv.rawText inv.fields.currency now
    ({ Engine1.initResult inv with auditTrail := (
        [audit .ingest now ("Loaded invoice " ++ inv.invoiceId),
         audit .duplicate_check now "Unique invoice."]) },
     { st with duplicateMemory := (st.duplicateMemory.set
        (duplicateKey inv.vendor inv.fields.invoiceNumber inv.fields.invoiceDate)
        { duplicateKey := duplicateKey inv.vendor inv.fields.invoiceNumber inv.fields.invoiceDate,
          vendor := inv.vendor, invoiceNumber := inv.fields.invoiceNumber,
          invoiceDate := inv.fields.invoiceDate, firstSeenAt := now,
          seenCount := 1 }) })
  refine ⟨?_, ?_, ?_, ?_, ?_, ?_⟩
  · rw [m1]
  · rw [m2]
    simp [Engine1.initResult]
  · rw [m3]
    simp [Engine1.initResult]
  · rw [m4]
    by_cases hok : vendorAbove st.vendorMemory inv.vendor <;> simp [hok]
  · rw [m4]
    by_cases hok : vendorAbove st.vendorMemory inv.vendor <;> simp [hok]
  · rw [m4]
    by_cases hok : vendorAbove st.vendorMemory inv.vendor <;> simp [hok]

set_option maxHeartbeats 2000000 in
theorem Engine2.demo_run_noFeedback (vendor invoiceNumber invoiceDate description now : String)
    (st : Stores)
    (hdup : st.duplicateMemory.find (duplicateKey vendor invoiceNumber invoiceDate) = none) :
    ((Engine2.processInvoice vendor invoiceNumber invoiceDate description false now st).1.requiresHumanReview =
      if ((match getVendorMemory st.vendorMemory vendor with
          | some m => m.confidence
          | none => 0 : ℚ)) ≥ 3/5 ∧
         (((match getCorrectionMemory st.correctionMemory "QTY_MISMATCH_USE_DN_QTY" with
           | some m => m.confidence
           | none => 0 : ℚ)) ≥ 3/5 ∨
          getCorrectionMemory st.correctionMemory "QTY_MISMATCH_USE_DN_QTY" = none) then
        (match getVendorMemory st.vendorMemory vendor with
         | some _ => false
         | none => true)
      else true) ∧
    ((Engine2.processInvoice vendor invoiceNumber invoiceDate description false now st).1.confidenceScore =
      if ((match getVendorMemory st.vendorMemory vendor with
          | some m => m.confidence
          | none => 0 : ℚ)) ≥ 3/5 ∧
         (((match getCorrectionMemory st.correctionMemory "QTY_MISMATCH_USE_DN_QTY" with
           | some m => m.confidence
           | none => 0 : ℚ)) ≥ 3/5 ∨
          getCorrectionMemory st.correctionMemory "QTY_MISMATCH_USE_DN_QTY" = none) then
        (match getVendorMemory st.vendorMemory vendor with
         | some _ =>
           min ((match getVendorMemory st.vendorMemory vendor with
                | some m => m.confidence
                | none => 0 : ℚ))
             (if ((match getCorrectionMemory st.correctionMemory "QTY_MISMATCH_USE_DN_QTY" with
                  | some m => m.confidence
                  | none => 0 : ℚ)) = 0 then 1
              else ((match getCorrectionMemory st.correctionMemory "QTY_MISMATCH_USE_DN_QTY" with
                    | some m => m.confidence
                    | none => 0 : ℚ)))
         | none => 0)
      else
        (match getVendorMemory st.vendorMemory vendor with
         | some _ =>
           ((match getVendorMemory st.vendorMemory vendor with
            | some m => m.confidence
            | none => 0 : ℚ))
         | none => 0)) ∧
    ((Engine2.processInvoice vendor invoiceNumber invoiceDate description false now st).2 =
      { st with duplicateMemory := (st.duplicateMemory.set
          (duplicateKey vendor invoiceNumber invoiceDate)
          { duplicateKey := duplicateKey vendor invoiceNumber invoiceDate,
            vendor := vendor, invoiceNumber := invoiceNumber,
            invoiceDate := invoiceDate, firstSeenAt := now, seenCount := 1 }) }) := by
  unfold Engine2.processInvoice
  simp only [checkAndRecord_absent _ _ _ _ _ hdup, getVendorMemory, getCorrectionMemory]
  rcases hv : st.vendorMemory.find vendor with _ | m <;>
    rcases hc : st.correctionMemory.find "QTY_MISMATCH_USE_DN_QTY" with _ | cm
  · simp only [hv, hc]
    norm_num
  · simp only [hv, hc]
    by_cases hcc : cm.confidence ≥ 3/5
    · simp [hcc]
      try norm_num
    · simp [hcc]
      try norm_num
  · simp only [hv, hc]
    by_cases hm : m.confidence ≥ 3/5
    · simp [hm]
      try norm_num
    · simp [hm]
      try norm_num
  · simp only [hv, hc]
    by_cases hm : m.confidence ≥ 3/5 <;> by_cases hcc : cm.confidence ≥ 3/5
    · simp [hm, hcc]
    · simp [hm, hcc]
    · simp [hm, hcc]
    · simp [hm, hcc]

/-! ## Claims on the memory stores -/

@[simp]
theorem ObjMap.find_nil {α : Type} (k : String) :
    ObjMap.find ([] : ObjMap α) k = none := rfl

/-- Claim C1 counterexample: reinforcing an existing pattern key does NOT
overwrite the stored payload with the values supplied in the call — after
approving pattern "P" with the new description "new", the store still holds
the original description "old". -/
theorem c1_counterexample :
    ((rememberCorrectionApproval
        [("P", { patternId := "P", description := "old", action := "oldAct",
                 confidence := 1/2, approvedCount := 1, rejectedCount := 0,
                 lastUpdated := "t0" })]
        "P" "new" "newAct" "t1").find "P").map CorrectionData.description ≠
      some "new" := by
  simp [rememberCorrectionApproval, ObjMap.find, ObjMap.set]

/-- Claim C1 (amended): reinforcing a key creates, when absent, a record with
confidence 0.5, approvedCount 1, rejectedCount 0 and payload from the call;
when present it sets confidence to `min(1.0, round(confidence + 0.1, 1))`,
increments approvedCount and refreshes lastUpdated — but
`rememberCorrectionApproval` keeps the stored description/action unchanged,
while `rememberVendorCorrection` does overwrite the serviceDateLabel (vendor
records carry no counts or timestamp). Other keys are untouched. -/
theorem c1_reinforce (mem : ObjMap CorrectionData) (vmem : ObjMap VendorData)
    (pid d a ts v label : String) :
    (mem.find pid = none →
      (rememberCorrectionApproval mem pid d a ts).find pid =
        some { patternId := pid, description := d, action := a,
               confidence := 1/2, approvedCount := 1, rejectedCount := 0,
               lastUpdated := ts }) ∧
    (∀ c, mem.find pid = some c →
      (rememberCorrectionApproval mem pid d a ts).find pid =
        some { c with
          confidence := min 1 ((jsRound ((c.confidence + 1/10) * 10) : ℚ) / 10),
          approvedCount := c.approvedCount + 1, lastUpdated := ts }) ∧
    (∀ k, k ≠ pid →
      (rememberCorrectionApproval mem pid d a ts).find k = mem.find k) ∧
    (vmem.find v = none →
      (rememberVendorCorrection vmem v label).find v =
        some { serviceDateLabel := label, confidence := 1/2 }) ∧
    (∀ c, vmem.find v = some c →
      (rememberVendorCorrection vmem v label).find v =
        some { serviceDateLabel := label,
               confidence := min 1 ((jsRound ((c.confidence + 1/10) * 10) : ℚ) / 10) }) ∧
    (∀ k, k ≠ v → (rememberVendorCorrection vmem v label).find k = vmem.find k) := by
  refine ⟨?_, ?_, ?_, ?_, ?_, ?_⟩
  · intro h
    unfold rememberCorrectionApproval
    rw [h]
    simp [ObjMap.find_set]
  · intro c h
    unfold rememberCorrectionApproval
    rw [h, ObjMap.find_set, if_pos rfl, reinforceConf_eq_claim]
  · intro k hk
    unfold rememberCorrectionApproval
    cases h : mem.find pid <;>
      simp [ObjMap.find_set, Ne.symm hk]
  · intro h
    unfold rememberVendorCorrection
    rw [h]
    simp [ObjMap.find_set]
  · intro c h
    unfold rememberVendorCorrection
    rw [h, ObjMap.find_set, if_pos rfl, reinforceConf_eq_claim]
  · intro k hk
    unfold rememberVendorCorrection
    cases h : vmem.find v <;>
      simp [ObjMap.find_set, Ne.symm hk]

/-- Witness for C1: a fresh pattern is created at confidence 0.5, and an
existing vendor record has its label overwritten and confidence reinforced. -/
theorem c1_witness :
    (rememberCorrectionApproval [] "P" "D" "A" "t").find "P" =
      some { patternId := "P", description := "D", action := "A",
             confidence := 1/2, approvedCount := 1, rejectedCount := 0,
             lastUpdated := "t" } ∧
    (rememberVendorCorrection
        [("V", { serviceDateLabel := "L", confidence := 1/2 })] "V" "M").find "V" =
      some { serviceDateLabel := "M",
             confidence := min 1 ((jsRound ((1/2 + 1/10) * 10) : ℚ) / 10) } :=
  ⟨(c1_reinforce [] [] "P" "D" "A" "t" "V" "M").1 rfl,
   (c1_reinforce [] [("V", { serviceDateLabel := "L", confidence := 1/2 })]
       "P" "D" "A" "t" "V" "M").2.2.2.2.1
     { serviceDateLabel := "L", confidence := 1/2 } rfl⟩

/-- Claim C2: decaying an absent key is a no-op (store unchanged, nothing
created); on a present key the confidence becomes
`max(0.0, round(confidence - 0.2, 1))`, rejectedCount is incremented and
lastUpdated refreshed; other keys are untouched. -/
theorem c2_decay (mem : ObjMap CorrectionData) (pid ts : String) :
    (mem.find pid = none → rememberCorrectionRejection mem pid ts = mem) ∧
    (∀ c, mem.find pid = some c →
      (rememberCorrectionRejection mem pid ts).find pid =
        some { c with
          confidence := max 0 ((jsRound ((c.confidence - 2/10) * 10) : ℚ) / 10),
          rejectedCount := c.rejectedCount + 1, lastUpdated := ts }) ∧
    (∀ k, k ≠ pid →
      (rememberCorrectionRejection mem pid ts).find k = mem.find k) := by
  refine ⟨?_, ?_, ?_⟩
  · intro h
    unfold rememberCorrectionRejection
    rw [h]
  · intro c h
    unfold rememberCorrectionRejection
    rw [h, ObjMap.find_set, if_pos rfl, decayConf_eq_claim]
  · intro k hk
    unfold rememberCorrectionRejection
    cases h : mem.find pid <;>
      simp [ObjMap.find_set, Ne.symm hk]

/-- Witness for C2: decay on the empty store is a no-op; decay on a stored
pattern at confidence 0.5 decrements to the claimed formula value and bumps
rejectedCount. -/
theorem c2_witness :
    rememberCorrectionRejection [] "P" "t" = [] ∧
    (rememberCorrectionRejection
        [("P", { patternId := "P", description := "D", action := "A",
                 confidence := 1/2, approvedCount := 1, rejectedCount := 0,
                 lastUpdated := "t0" })] "P" "t1").find "P" =
      some { patternId := "P", description := "D", action := "A",
             confidence := max 0 ((jsRound ((1/2 - 2/10) * 10) : ℚ) / 10),
             approvedCount := 1, rejectedCount := 1, lastUpdated := "t1" } :=
  ⟨(c2_decay [] "P" "t").1 rfl,
   (c2_decay [("P", { patternId := "P", description := "D", action := "A",
                      confidence := 1/2, approvedCount := 1, rejectedCount := 0,
                      lastUpdated := "t0" })] "P" "t1").2.1
     { patternId := "P", description := "D", action := "A",
       confidence := 1/2, approvedCount := 1, rejectedCount := 0,
       lastUpdated := "t0" } rfl⟩

theorem correctionStoreWF_nil : correctionStoreWF [] := by
  intro k dd hk
  simp [ObjMap.find_nil] at hk

theorem vendorStoreWF_nil : vendorStoreWF [] := by
  intro k dd hk
  simp [ObjMap.find_nil] at hk

theorem correctionStoreWF_approve {mem : ObjMap CorrectionData}
    (pid d a ts : String) (h : correctionStoreWF mem) :
    correctionStoreWF (rememberCorrectionApproval mem pid d a ts) := by
  intro k dd hk
  unfold rememberCorrectionApproval at hk
  cases hfind : mem.find pid with
  | some c =>
    rw [hfind, ObjMap.find_set] at hk
    split_ifs at hk with hkey
    · injection hk with hv
      rw [← hv]
      exact confWF_reinforce (h pid c hfind)
    · exact h k dd hk
  | none =>
    rw [hfind, ObjMap.find_set] at hk
    split_ifs at hk with hkey
    · injection hk with hv
      rw [← hv]
      exact confWF_init
    · exact h k dd hk

theorem correctionStoreWF_reject {mem : ObjMap CorrectionData}
    (pid ts : String) (h : correctionStoreWF mem) :
    correctionStoreWF (rememberCorrectionRejection mem pid ts) := by
  intro k dd hk
  unfold rememberCorrectionRejection at hk
  cases hfind : mem.find pid with
  | some c =>
    rw [hfind, ObjMap.find_set] at hk
    split_ifs at hk with hkey
    · injection hk with hv
      rw [← hv]
      exact confWF_decay (h pid c hfind)
    · exact h k dd hk
  | none =>
    rw [hfind] at hk
    exact h k dd hk

theorem vendorStoreWF_remember {mem : ObjMap VendorData}
    (v label : String) (h : vendorStoreWF mem) :
    vendorStoreWF (rememberVendorCorrection mem v label) := by
  intro k dd hk
  unfold rememberVendorCorrection at hk
  cases hfind : mem.find v with
  | some c =>
    rw [hfind, ObjMap.find_set] at hk
    split_ifs at hk with hkey
    · injection hk with hv
      rw [← hv]
      exact confWF_reinforce (h v c hfind)
    · exact h k dd hk
  | none =>
    rw [hfind, ObjMap.find_set] at hk
    split_ifs at hk with hkey
    · injection hk with hv
      rw [← hv]
      exact confWF_init
    · exact h k dd hk

theorem applyCorrectionOp_WF {mem : ObjMap CorrectionData}
    (op : String × CorrectionOp) (h : correctionStoreWF mem) :
    correctionStoreWF (applyCorrectionOp mem op) := by
  obtain ⟨k, o⟩ := op
  cases o with
  | approve d a ts => exact correctionStoreWF_approve k d a ts h
  | reject ts => exact correctionStoreWF_reject k ts h

theorem runCorrectionOps_WF (ops : List (String × CorrectionOp)) :
    ∀ mem, correctionStoreWF mem → correctionStoreWF (runCorrectionOps ops mem) := by
  induction ops with
  | nil => intro mem h; exact h
  | cons op rest ih =>
    intro mem h
    exact ih (applyCorrectionOp mem op) (applyCorrectionOp_WF op h)

theorem runVendorOps_WF (ops : List (String × String)) :
    ∀ mem, vendorStoreWF mem → vendorStoreWF (runVendorOps ops mem) := by
  induction ops with
  | nil => intro mem h; exact h
  | cons op rest ih =>
    intro mem h
    exact ih (rememberVendorCorrection mem op.1 op.2) (vendorStoreWF_remember op.1 op.2 h)

theorem applyCorrectionOp_creates (mem : ObjMap CorrectionData)
    (op : String × CorrectionOp) (pid : String) (d : CorrectionData)
    (habs : mem.find pid = none)
    (hnew : (applyCorrectionOp mem op).find pid = some d) :
    d.confidence = 1/2 := by
  obtain ⟨k, o⟩ := op
  cases o with
  | approve de a ts =>
    simp only [applyCorrectionOp, rememberCorrectionApproval] at hnew
    cases hfind : mem.find k with
    | some c =>
      rw [hfind, ObjMap.find_set] at hnew
      split_ifs at hnew with hkey
      · subst hkey
        rw [hfind] at habs
        cases habs
      · rw [habs] at hnew
        cases hnew
    | none =>
      rw [hfind, ObjMap.find_set] at hnew
      split_ifs at hnew with hkey
      · injection hnew with hv
        rw [← hv]
      · rw [habs] at hnew
        cases hnew
  | reject ts =>
    simp only [applyCorrectionOp, rememberCorrectionRejection] at hnew
    cases hfind : mem.find k with
    | some c =>
      rw [hfind, ObjMap.find_set] at hnew
      split_ifs at hnew with hkey
      · subst hkey
        rw [hfind] at habs
        cases habs
      · rw [habs] at hnew
        cases hnew
    | none =>
      rw [hfind] at hnew
      rw [habs] at hnew
      cases hnew

theorem rememberVendorCorrection_creates (vmem : ObjMap VendorData)
    (v label pid : String) (d : VendorData)
    (habs : vmem.find pid = none)
    (hnew : (rememberVendorCorrection vmem v label).find pid = some d) :
    d.confidence = 1/2 := by
  unfold rememberVendorCorrection at hnew
  cases hfind : vmem.find v with
  | some c =>
    rw [hfind, ObjMap.find_set] at hnew
    split_ifs at hnew with hkey
    · subst hkey
      rw [hfind] at habs
      cases habs
    · rw [habs] at hnew
      cases hnew
  | none =>
    rw [hfind, ObjMap.find_set] at hnew
    split_ifs at hnew with hkey
    · injection hnew with hv
      rw [← hv]
    · rw [habs] at hnew
      cases hnew

/-- Claim C3: over every finite sequence of reinforce/decay operations
starting from the empty store, every stored confidence stays within
`[0.0, 1.0]` (for both the pattern store and the vendor store), and a record
can only ever be created with the initial confidence 0.5. -/
theorem c3_confidence_invariant :
    (∀ ops : List (String × CorrectionOp), ∀ pid d,
      (runCorrectionOps ops []).find pid = some d →
      0 ≤ d.confidence ∧ d.confidence ≤ 1) ∧
    (∀ ops : List (String × String), ∀ v d,
      (runVendorOps ops []).find v = some d →
      0 ≤ d.confidence ∧ d.confidence ≤ 1) ∧
    (∀ mem op pid d, ObjMap.find mem pid = none →
      (applyCorrectionOp mem op).find pid = some d → d.confidence = 1/2) ∧
    (∀ vmem v label pid d, ObjMap.find vmem pid = none →
      (rememberVendorCorrection vmem v label).find pid = some d →
      d.confidence = 1/2) := by
  refine ⟨?_, ?_, ?_, ?_⟩
  · intro ops pid d h
    exact confWF_bounds (runCorrectionOps_WF ops [] correctionStoreWF_nil pid d h)
  · intro ops v d h
    exact confWF_bounds (runVendorOps_WF ops [] vendorStoreWF_nil v d h)
  · intro mem op pid d habs hnew
    exact applyCorrectionOp_creates mem op pid d habs hnew
  · intro vmem v label pid d habs hnew
    exact rememberVendorCorrection_creates vmem v label pid d habs hnew

/-- Witness for C3: one approval followed by one rejection of key "p" leaves
its confidence (0.3) inside the bounds, and a record created by a single
approval carries confidence 0.5. -/
theorem c3_witness :
    (0 ≤ ({ patternId := "p", description := "d", action := "a",
            confidence := decayConf (1/2), approvedCount := 1,
            rejectedCount := 1, lastUpdated := "t2" } : CorrectionData).confidence ∧
     ({ patternId := "p", description := "d", action := "a",
        confidence := decayConf (1/2), approvedCount := 1,
        rejectedCount := 1, lastUpdated := "t2" } : CorrectionData).confidence ≤ 1) ∧
    ({ patternId := "p", description := "d", action := "a",
       confidence := 1/2, approvedCount := 1, rejectedCount := 0,
       lastUpdated := "t1" } : CorrectionData).confidence = 1/2 :=
  ⟨c3_confidence_invariant.1
      [("p", .approve "d" "a" "t1"), ("p", .reject "t2")] "p" _ rfl,
   c3_confidence_invariant.2.2.1 [] ("p", .approve "d" "a" "t1") "p" _ rfl rfl⟩

theorem find_iterateCheck (v i d ts : String) :
    ∀ n, (iterateCheck v i d ts n).find (duplicateKey v i d) =
      if n = 0 then none
      else some { duplicateKey := duplicateKey v i d, vendor := v,
                  invoiceNumber := i, invoiceDate := d, firstSeenAt := ts,
                  seenCount := n } := by
  intro n
  induction n with
  | zero => simp [iterateCheck, ObjMap.find_nil]
  | succ n ih =>
    unfold iterateCheck
    by_cases hn : n = 0
    · subst hn
      rw [if_pos rfl] at ih
      rw [checkAndRecord_absent _ _ _ _ _ ih]
      simp [ObjMap.find_set]
    · rw [if_neg hn] at ih
      rw [checkAndRecord_present _ _ _ _ _ _ ih]
      simp [ObjMap.find_set]

/-- Claim C5: starting from the empty duplicate store, the first
`checkAndRecordInvoice` call on a triple returns `{isDuplicate: false,
seenCount: 1}` and every n-th call (n > 1) on the same triple returns
`{isDuplicate: true, seenCount: n}`. -/
theorem c5_duplicate_counting (v i d ts : String) :
    nthCheck v i d ts 1 = (false, 1) ∧
    ∀ n, 1 < n → nthCheck v i d ts n = (true, n) := by
  constructor
  · unfold nthCheck
    have h0 : (iterateCheck v i d ts (1 - 1)).find (duplicateKey v i d) = none := by
      simp [iterateCheck, ObjMap.find_nil]
    rw [checkAndRecord_absent _ _ _ _ _ h0]
  · intro n hn
    unfold nthCheck
    have h := find_iterateCheck v i d ts (n - 1)
    rw [if_neg (by omega : ¬(n - 1 = 0))] at h
    rw [checkAndRecord_present _ _ _ _ _ _ h]
    simp only [Prod.mk.injEq]
    exact ⟨trivial, by omega⟩

/-- Witness for C5 at n = 2. -/
theorem c5_witness :
    nthCheck "V" "I" "D" "t" 1 = (false, 1) ∧ 1 < 2 ∧
    nthCheck "V" "I" "D" "t" 2 = (true, 2) :=
  ⟨(c5_duplicate_counting "V" "I" "D" "t").1, by decide,
   (c5_duplicate_counting "V" "I" "D" "t").2 2 (by decide)⟩

/-- Claim C10: the composite duplicate key is not injective — the distinct
triples ("A|B", "C", "D") and ("A", "B|C", "D") build the same key
"A|B|C|D", so after recording the first, the second is reported as a
duplicate. -/
theorem c10_composite_key_collision :
    (("A|B", "C", "D") : String × String × String) ≠ ("A", "B|C", "D") ∧
    duplicateKey "A|B" "C" "D" = duplicateKey "A" "B|C" "D" ∧
    isDuplicateInvoice (checkAndRecordInvoice [] "A|B" "C" "D" "t").1
      "A" "B|C" "D" = true := by
  refine ⟨by decide, by decide, by decide⟩

/-! ## Claims on the decision engines -/

/-- Claim C4 counterexample: a duplicate run of the full engine DOES mutate
the duplicate ledger (seenCount 1 → 2) and its audit trail has two entries
(an ingest entry precedes the duplicate_check entry), not exactly one. -/
theorem c4_counterexample :
    ((Engine1.processInvoice []
        { invoiceId := "X", vendor := "V",
          fields := { invoiceNumber := "I", invoiceDate := "D",
                      currency := none, poNumber := none, lineItems := [] },
          rawText := "" } false "t1"
        { vendorMemory := [], correctionMemory := [], resolutionMemory := [],
          duplicateMemory := [("V|I|D",
            { duplicateKey := "V|I|D", vendor := "V", invoiceNumber := "I",
              invoiceDate := "D", firstSeenAt := "t0", seenCount := 1 })] }
      ).2.duplicateMemory ≠
      [("V|I|D", { duplicateKey := "V|I|D", vendor := "V", invoiceNumber := "I",
                   invoiceDate := "D", firstSeenAt := "t0", seenCount := 1 })]) ∧
    ((Engine1.processInvoice []
        { invoiceId := "X", vendor := "V",
          fields := { invoiceNumber := "I", invoiceDate := "D",
                      currency := none, poNumber := none, lineItems := [] },
          rawText := "" } false "t1"
        { vendorMemory := [], correctionMemory := [], resolutionMemory := [],
          duplicateMemory := [("V|I|D",
            { duplicateKey := "V|I|D", vendor := "V", invoiceNumber := "I",
              invoiceDate := "D", firstSeenAt := "t0", seenCount := 1 })] }
      ).1.auditTrail.length = 2) := by
  rw [Engine1.full_run_dup _ _ _ _ _
    { duplicateKey := "V|I|D", vendor := "V", invoiceNumber := "I",
      invoiceDate := "D", firstSeenAt := "t0", seenCount := 1 } (by rfl)]
  constructor
  · decide
  · rfl

/-- Claim C4 (amended): a run over an already-seen key terminates right after
the duplicate check with requiresHumanReview = true and a reasoning string
naming the repeat count; the vendor, correction and resolution stores are
untouched, but the duplicate ledger itself IS updated (seenCount + 1 at that
key). The audit trail ends with the single duplicate_check entry — in the
full engine an ingest entry logged before the check precedes it (two entries
total); in the demo engine the trail is exactly that one entry. -/
theorem c4_duplicate_run (purchaseOrders : List PurchaseOrder)
    (inv : ExtractedInvoice) (v i dt desc : String) (fb fb' : Bool)
    (now : String) (st st' : Stores) (e e' : DuplicateEntry)
    (h : st.duplicateMemory.find
        (duplicateKey inv.vendor inv.fields.invoiceNumber inv.fields.invoiceDate) = some e)
    (h' : st'.duplicateMemory.find (duplicateKey v i dt) = some e') :
    ((Engine1.processInvoice purchaseOrders inv fb now st).1.requiresHumanReview = true) ∧
    ((Engine1.processInvoice purchaseOrders inv fb now st).1.reasoning =
      "Duplicate invoice (Seen " ++ toString (e.seenCount + 1) ++ " times)") ∧
    ((Engine1.processInvoice purchaseOrders inv fb now st).1.auditTrail =
      [audit .ingest now ("Loaded invoice " ++ inv.invoiceId),
       audit .duplicate_check now ("Duplicate. seenCount=" ++ toString (e.seenCount + 1))]) ∧
    ((Engine1.processInvoice purchaseOrders inv fb now st).2.vendorMemory = st.vendorMemory) ∧
    ((Engine1.processInvoice purchaseOrders inv fb now st).2.correctionMemory = st.correctionMemory) ∧
    ((Engine1.processInvoice purchaseOrders inv fb now st).2.resolutionMemory = st.resolutionMemory) ∧
    ((Engine1.processInvoice purchaseOrders inv fb now st).2.duplicateMemory =
      st.duplicateMemory.set
        (duplicateKey inv.vendor inv.fields.invoiceNumber inv.fields.invoiceDate)
        { e with seenCount := e.seenCount + 1 }) ∧
    ((Engine2.processInvoice v i dt desc fb' now st').1.requiresHumanReview = true) ∧
    ((Engine2.processInvoice v i dt desc fb' now st').1.reasoning =
      "Duplicate invoice detected (Seen " ++ toString (e'.seenCount + 1) ++ " times)") ∧
    ((Engine2.processInvoice v i dt desc fb' now st').1.auditTrail =
      [audit .duplicate_check now
        ("Duplicate key found. seenCount=" ++ toString (e'.seenCount + 1))]) ∧
    ((Engine2.processInvoice v i dt desc fb' now st').2.vendorMemory = st'.vendorMemory) ∧
    ((Engine2.processInvoice v i dt desc fb' now st').2.correctionMemory = st'.correctionMemory) ∧
    ((Engine2.processInvoice v i dt desc fb' now st').2.resolutionMemory = st'.resolutionMemory) ∧
    ((Engine2.processInvoice v i dt desc fb' now st').2.duplicateMemory =
      st'.duplicateMemory.set (duplicateKey v i dt)
        { e' with seenCount := e'.seenCount + 1 }) := by
  rw [Engine1.full_run_dup purchaseOrders inv fb now st e h,
      Engine2.demo_run_dup v i dt desc fb' now st' e' h']
  refine ⟨?_, rfl, rfl, rfl, rfl, rfl, rfl, rfl, rfl, rfl, rfl, rfl, rfl, rfl⟩
  simp [Engine1.initResult]

/-- Witness for C4 at a concrete duplicate store. -/
theorem c4_witness :
    ((Engine1.processInvoice []
        { invoiceId := "Y", vendor := "W",
          fields := { invoiceNumber := "N", invoiceDate := "E",
                      currency := none, poNumber := none, lineItems := [] },
          rawText := "" } false "u1"
        { vendorMemory := [], correctionMemory := [], resolutionMemory := [],
          duplicateMemory := [("W|N|E",
            { duplicateKey := "W|N|E", vendor := "W", invoiceNumber := "N",
              invoiceDate := "E", firstSeenAt := "u0", seenCount := 3 })] }
      ).1.requiresHumanReview = true) ∧
    ((Engine2.processInvoice "W" "N" "E" "item" false "u1"
        { vendorMemory := [], correctionMemory := [], resolutionMemory := [],
          duplicateMemory := [("W|N|E",
            { duplicateKey := "W|N|E", vendor := "W", invoiceNumber := "N",
              invoiceDate := "E", firstSeenAt := "u0", seenCount := 3 })] }
      ).1.auditTrail =
      [audit .duplicate_check "u1" "Duplicate key found. seenCount=4"]) :=
  ⟨(c4_duplicate_run []
      { invoiceId := "Y", vendor := "W",
        fields := { invoiceNumber := "N", invoiceDate := "E",
                    currency := none, poNumber := none, lineItems := [] },
        rawText := "" } "W" "N" "E" "item" false false "u1"
      { vendorMemory := [], correctionMemory := [], resolutionMemory := [],
        duplicateMemory := [("W|N|E",
          { duplicateKey := "W|N|E", vendor := "W", invoiceNumber := "N",
            invoiceDate := "E", firstSeenAt := "u0", seenCount := 3 })] }
      { vendorMemory := [], correctionMemory := [], resolutionMemory := [],
        duplicateMemory := [("W|N|E",
          { duplicateKey := "W|N|E", vendor := "W", invoiceNumber := "N",
            invoiceDate := "E", firstSeenAt := "u0", seenCount := 3 })] }
      { duplicateKey := "W|N|E", vendor := "W", invoiceNumber := "N",
        invoiceDate := "E", firstSeenAt := "u0", seenCount := 3 }
      { duplicateKey := "W|N|E", vendor := "W", invoiceNumber := "N",
        invoiceDate := "E", firstSeenAt := "u0", seenCount := 3 }
      rfl rfl).1,
   (c4_duplicate_run []
      { invoiceId := "Y", vendor := "W",
        fields := { invoiceNumber := "N", invoiceDate := "E",
                    currency := none, poNumber := none, lineItems := [] },
        rawText := "" } "W" "N" "E" "item" false false "u1"
      { vendorMemory := [], correctionMemory := [], resolutionMemory := [],
        duplicateMemory := [("W|N|E",
          { duplicateKey := "W|N|E", vendor := "W", invoiceNumber := "N",
            invoiceDate := "E", firstSeenAt := "u0", seenCount := 3 })] }
      { vendorMemory := [], correctionMemory := [], resolutionMemory := [],
        duplicateMemory := [("W|N|E",
          { duplicateKey := "W|N|E", vendor := "W", invoiceNumber := "N",
            invoiceDate := "E", firstSeenAt := "u0", seenCount := 3 })] }
      { duplicateKey := "W|N|E", vendor := "W", invoiceNumber := "N",
        invoiceDate := "E", firstSeenAt := "u0", seenCount := 3 }
      { duplicateKey := "W|N|E", vendor := "W", invoiceNumber := "N",
        invoiceDate := "E", firstSeenAt := "u0", seenCount := 3 }
      rfl rfl).2.2.2.2.2.2.2.2.2.1⟩

/-- Claim C6: in the full engine, a stored vendor confidence exactly equal to
the 0.6 threshold suffices (`>=`, not `>`): a non-duplicate run without
feedback auto-applies the learned serviceDateLabel and clears
requiresHumanReview, while the same run with vendor confidence 0.5 leaves
the label unapplied and escalates. -/
theorem c6_threshold_boundary (purchaseOrders : List PurchaseOrder)
    (inv : ExtractedInvoice) (now label label' : String) (st st' : Stores)
    (hdup : st.duplicateMemory.find
        (duplicateKey inv.vendor inv.fields.invoiceNumber inv.fields.invoiceDate) = none)
    (hdup' : st'.duplicateMemory.find
        (duplicateKey inv.vendor inv.fields.invoiceNumber inv.fields.invoiceDate) = none)
    (hv : st.vendorMemory.find inv.vendor =
      some { serviceDateLabel := label, confidence := 3/5 })
    (hv' : st'.vendorMemory.find inv.vendor =
      some { serviceDateLabel := label', confidence := 1/2 }) :
    ((Engine1.processInvoice purchaseOrders inv false now st).1.normalizedInvoice.serviceDateLabel =
      some label ∧
     (Engine1.processInvoice purchaseOrders inv false now st).1.requiresHumanReview = false) ∧
    ((Engine1.processInvoice purchaseOrders inv false now st').1.normalizedInvoice.serviceDateLabel =
      none ∧
     (Engine1.processInvoice purchaseOrders inv false now st').1.requiresHumanReview = true) := by
  obtain ⟨r1, r2, _, _⟩ := Engine1.full_run_noFeedback purchaseOrders inv now st hdup
  obtain ⟨s1, s2, _, _⟩ := Engine1.full_run_noFeedback purchaseOrders inv now st' hdup'
  have hyes : ((3:ℚ)/5) ≥ 3/5 := le_refl _
  have hno : ¬(((1:ℚ)/2) ≥ 3/5) := by norm_num
  refine ⟨⟨?_, ?_⟩, ⟨?_, ?_⟩⟩
  · rw [r2]
    simp [getVendorMemory, hv, hyes]
  · rw [r1]
    simp [vendorAbove, hv, hyes]
  · rw [s2]
    simp [getVendorMemory, hv', hno]
    norm_num
  · rw [s1]
    simp [vendorAbove, hv', hno]
    norm_num

/-- Witness for C6 at concrete stores with confidences 0.6 and 0.5. -/
theorem c6_witness :
    ((Engine1.processInvoice []
        { invoiceId := "X", vendor := "V",
          fields := { invoiceNumber := "I", invoiceDate := "D",
                      currency := none, poNumber := none, lineItems := [] },
          rawText := "" } false "t"
        { vendorMemory := [("V", { serviceDateLabel := "L", confidence := 3/5 })],
          correctionMemory := [], resolutionMemory := [], duplicateMemory := [] }
      ).1.normalizedInvoice.serviceDateLabel = some "L" ∧
     (Engine1.processInvoice []
        { invoiceId := "X", vendor := "V",
          fields := { invoiceNumber := "I", invoiceDate := "D",
                      currency := none, poNumber := none, lineItems := [] },
          rawText := "" } false "t"
        { vendorMemory := [("V", { serviceDateLabel := "L", confidence := 3/5 })],
          correctionMemory := [], resolutionMemory := [], duplicateMemory := [] }
      ).1.requiresHumanReview = false) ∧
    ((Engine1.processInvoice []
        { invoiceId := "X", vendor := "V",
          fields := { invoiceNumber := "I", invoiceDate := "D",
                      currency := none, poNumber := none, lineItems := [] },
          rawText := "" } false "t"
        { vendorMemory := [("V", { serviceDateLabel := "M", confidence := 1/2 })],
          correctionMemory := [], resolutionMemory := [], duplicateMemory := [] }
      ).1.normalizedInvoice.serviceDateLabel = none ∧
     (Engine1.processInvoice []
        { invoiceId := "X", vendor := "V",
          fields := { invoiceNumber := "I", invoiceDate := "D",
                      currency := none, poNumber := none, lineItems := [] },
          rawText := "" } false "t"
        { vendorMemory := [("V", { serviceDateLabel := "M", confidence := 1/2 })],
          correctionMemory := [], resolutionMemory := [], duplicateMemory := [] }
      ).1.requiresHumanReview = true) :=
  c6_threshold_boundary []
    { invoiceId := "X", vendor := "V",
      fields := { invoiceNumber := "I", invoiceDate := "D",
                  currency := none, poNumber := none, lineItems := [] },
      rawText := "" } "t" "L" "M"
    { vendorMemory := [("V", { serviceDateLabel := "L", confidence := 3/5 })],
      correctionMemory := [], resolutionMemory := [], duplicateMemory := [] }
    { vendorMemory := [("V", { serviceDateLabel := "M", confidence := 1/2 })],
      correctionMemory := [], resolutionMemory := [], duplicateMemory := [] }
    rfl rfl rfl rfl

/-- Claim C7 counterexample: in the demo engine, a non-duplicate feedback-free
run whose vendor record exists with confidence 0.7 (above the 0.6 threshold)
still sets requiresHumanReview = true, because a pattern-scoped correction
record (QTY_MISMATCH_USE_DN_QTY at confidence 0.5) is below the threshold —
so the aggregate flag is NOT independent of the pattern-scoped record. -/
theorem c7_counterexample :
    ((Engine2.processInvoice "V" "I" "D" "Desc" false "t"
        { vendorMemory := [("V", { serviceDateLabel := "L", confidence := 7/10 })],
          correctionMemory := [("QTY_MISMATCH_USE_DN_QTY",
            { patternId := "QTY_MISMATCH_USE_DN_QTY", description := "d",
              action := "a", confidence := 1/2, approvedCount := 1,
              rejectedCount := 0, lastUpdated := "t0" })],
          resolutionMemory := [], duplicateMemory := [] }
      ).1.requiresHumanReview = true) ∧
    (ObjMap.find ([("V", { serviceDateLabel := "L", confidence := 7/10 })] :
        ObjMap VendorData) "V" =
      some { serviceDateLabel := "L", confidence := (7:ℚ)/10 }) ∧
    ((7:ℚ)/10 ≥ 3/5) := by
  obtain ⟨h1, _, _⟩ := Engine2.demo_run_noFeedback "V" "I" "D" "Desc" "t"
    { vendorMemory := [("V", { serviceDateLabel := "L", confidence := 7/10 })],
      correctionMemory := [("QTY_MISMATCH_USE_DN_QTY",
        { patternId := "QTY_MISMATCH_USE_DN_QTY", description := "d",
          action := "a", confidence := 1/2, approvedCount := 1,
          rejectedCount := 0, lastUpdated := "t0" })],
      resolutionMemory := [], duplicateMemory := [] } rfl
  refine ⟨?_, rfl, by norm_num⟩
  rw [h1]
  simp [getVendorMemory, getCorrectionMemory, ObjMap.find]
  norm_num

/-- Claim C7 (amended): for a feedback-free non-duplicate run, the full
engine behaves as claimed — requiresHumanReview is true unless the
vendor-scoped record exists and clears the 0.6 threshold, and
confidenceScore is the vendor-scoped confidence (0 when absent), regardless
of the pattern store. The demo engine instead also requires the
QTY_MISMATCH_USE_DN_QTY pattern record to be absent or at/above the
threshold, and its auto-applied confidenceScore is
min(vendorConfidence, correctionConfidence || 1). -/
theorem c7_aggregate_review (purchaseOrders : List PurchaseOrder)
    (inv : ExtractedInvoice) (v i dt desc now : String) (st st' : Stores)
    (hdup : st.duplicateMemory.find
        (duplicateKey inv.vendor inv.fields.invoiceNumber inv.fields.invoiceDate) = none)
    (hdup' : st'.duplicateMemory.find (duplicateKey v i dt) = none) :
    ((Engine1.processInvoice purchaseOrders inv false now st).1.requiresHumanReview =
      !(vendorAbove st.vendorMemory inv.vendor)) ∧
    ((Engine1.processInvoice purchaseOrders inv false now st).1.confidenceScore =
      match getVendorMemory st.vendorMemory inv.vendor with
      | some m => m.confidence
      | none => 0) ∧
    ((Engine2.processInvoice v i dt desc false now st').1.requiresHumanReview =
      if (match getVendorMemory st'.vendorMemory v with
          | some m => m.confidence
          | none => 0 : ℚ) ≥ 3/5 ∧
         ((match getCorrectionMemory st'.correctionMemory "QTY_MISMATCH_USE_DN_QTY" with
           | some m => m.confidence
           | none => 0 : ℚ) ≥ 3/5 ∨
          getCorrectionMemory st'.correctionMemory "QTY_MISMATCH_USE_DN_QTY" = none) then
        (match getVendorMemory st'.vendorMemory v with
         | some _ => false
         | none => true)
      else true) ∧
    ((Engine2.processInvoice v i dt desc false now st').1.confidenceScore =
      if (match getVendorMemory st'.vendorMemory v with
          | some m => m.confidence
          | none => 0 : ℚ) ≥ 3/5 ∧
         ((match getCorrectionMemory st'.correctionMemory "QTY_MISMATCH_USE_DN_QTY" with
           | some m => m.confidence
           | none => 0 : ℚ) ≥ 3/5 ∨
          getCorrectionMemory st'.correctionMemory "QTY_MISMATCH_USE_DN_QTY" = none) then
        (match getVendorMemory st'.vendorMemory v with
         | some _ =>
           min ((match getVendorMemory st'.vendorMemory v with
                 | some m => m.confidence
                 | none => 0 : ℚ))
             (if ((match getCorrectionMemory st'.correctionMemory "QTY_MISMATCH_USE_DN_QTY" with
                   | some m => m.confidence
                   | none => 0 : ℚ)) = 0 then 1
              else ((match getCorrectionMemory st'.correctionMemory "QTY_MISMATCH_USE_DN_QTY" with
                     | some m => m.confidence
                     | none => 0 : ℚ)))
         | none => 0)
      else
        (match getVendorMemory st'.vendorMemory v with
         | some _ =>
           ((match getVendorMemory st'.vendorMemory v with
             | some m => m.confidence
             | none => 0 : ℚ))
         | none => 0)) := by
  obtain ⟨a1, _, a2, _⟩ := Engine1.full_run_noFeedback purchaseOrders inv now st hdup
  obtain ⟨b1, b2, _⟩ := Engine2.demo_run_noFeedback v i dt desc now st' hdup'
  exact ⟨a1, a2, b1, b2⟩

/-- Witness for C7: vendor record at 0.7, pattern record at 0.6 — the full
engine clears review; the demo engine also clears it here since the pattern
record meets the threshold. -/
theorem c7_witness :
    ((Engine1.processInvoice []
        { invoiceId := "X", vendor := "V",
          fields := { invoiceNumber := "I", invoiceDate := "D",
                      currency := none, poNumber := none, lineItems := [] },
          rawText := "" } false "t"
        { vendorMemory := [("V", { serviceDateLabel := "L", confidence := 7/10 })],
          correctionMemory := [], resolutionMemory := [], duplicateMemory := [] }
      ).1.requiresHumanReview =
        !(vendorAbove [("V", { serviceDateLabel := "L", confidence := 7/10 })] "V")) ∧
    ((Engine2.processInvoice "V" "I" "D" "Desc" false "t"
        { vendorMemory := [("V", { serviceDateLabel := "L", confidence := 7/10 })],
          correctionMemory := [], resolutionMemory := [], duplicateMemory := [] }
      ).1.requiresHumanReview =
      if ((7:ℚ)/10) ≥ 3/5 ∧ (((0:ℚ)) ≥ 3/5 ∨ (none : Option CorrectionData) = none) then
        false
      else true) := by
  obtain ⟨w1, _, w2, _⟩ := c7_aggregate_review []
    { invoiceId := "X", vendor := "V",
      fields := { invoiceNumber := "I", invoiceDate := "D",
                  currency := none, poNumber := none, lineItems := [] },
      rawText := "" } "V" "I" "D" "Desc" "t"
    { vendorMemory := [("V", { serviceDateLabel := "L", confidence := 7/10 })],
      correctionMemory := [], resolutionMemory := [], duplicateMemory := [] }
    { vendorMemory := [("V", { serviceDateLabel := "L", confidence := 7/10 })],
      correctionMemory := [], resolutionMemory := [], duplicateMemory := [] }
    rfl rfl
  exact ⟨w1, w2⟩

/-- Claim C9 counterexample: in the demo engine a feedback-free run that
auto-applies (vendor confidence 0.6, requiresHumanReview = false) records
NOTHING in the resolution ledger — the implicit system-success approval is
only written when simulateHumanFeedback is true. -/
theorem c9_counterexample :
    ((Engine2.processInvoice "V" "I" "D" "Desc" false "t"
        { vendorMemory := [("V", { serviceDateLabel := "L", confidence := 3/5 })],
          correctionMemory := [], resolutionMemory := [], duplicateMemory := [] }
      ).1.requiresHumanReview = false) ∧
    ((Engine2.processInvoice "V" "I" "D" "Desc" false "t"
        { vendorMemory := [("V", { serviceDateLabel := "L", confidence := 3/5 })],
          correctionMemory := [], resolutionMemory := [], duplicateMemory := [] }
      ).2.resolutionMemory = []) := by
  obtain ⟨h1, _, h3⟩ := Engine2.demo_run_noFeedback "V" "I" "D" "Desc" "t"
    { vendorMemory := [("V", { serviceDateLabel := "L", confidence := 3/5 })],
      correctionMemory := [], resolutionMemory := [], duplicateMemory := [] } rfl
  constructor
  · rw [h1]
    simp [getVendorMemory, getCorrectionMemory, ObjMap.find]
  · rw [h3]

/-- Claim C9 (amended): in the full engine, a feedback-free run that ends
with requiresHumanReview = false still records the implicit system-success
approval under `VENDOR:<vendor>:serviceDateLabel`; in the demo engine a
feedback-free run never touches the resolution ledger (the system-success
approval there is gated on simulateHumanFeedback). -/
theorem c9_system_success (purchaseOrders : List PurchaseOrder)
    (inv : ExtractedInvoice) (v i dt desc now : String) (st st' : Stores) :
    ((Engine1.processInvoice purchaseOrders inv false now st).1.requiresHumanReview = false →
      (Engine1.processInvoice purchaseOrders inv false now st).2.resolutionMemory =
        recordApproval st.resolutionMemory
          ("VENDOR:" ++ inv.vendor ++ ":serviceDateLabel") now) ∧
    ((Engine2.processInvoice v i dt desc false now st').2.resolutionMemory =
      st'.resolutionMemory) := by
  constructor
  · intro hrev
    cases hdup : st.duplicateMemory.find
        (duplicateKey inv.vendor inv.fields.invoiceNumber inv.fields.invoiceDate) with
    | some e =>
      rw [Engine1.full_run_dup purchaseOrders inv false now st e hdup] at hrev
      simp [Engine1.initResult] at hrev
    | none =>
      obtain ⟨r1, _, _, _, _, r6⟩ := Engine1.full_run_noFeedback purchaseOrders inv now st hdup
      rw [r1] at hrev
      rw [r6]
      cases hok : vendorAbove st.vendorMemory inv.vendor with
      | false => rw [hok] at hrev; cases hrev
      | true => simp
  · cases hdup : st'.duplicateMemory.find (duplicateKey v i dt) with
    | some e =>
      rw [Engine2.demo_run_dup v i dt desc false now st' e hdup]
    | none =>
      obtain ⟨_, _, h3⟩ := Engine2.demo_run_noFeedback v i dt desc now st' hdup
      rw [h3]

/-- Witness for C9: with vendor confidence 0.6 the full engine's feedback-free
run clears review, and the ledger gains the system-success approval. -/
theorem c9_witness :
    (Engine1.processInvoice []
        { invoiceId := "X", vendor := "V",
          fields := { invoiceNumber := "I", invoiceDate := "D",
                      currency := none, poNumber := none, lineItems := [] },
          rawText := "" } false "t"
        { vendorMemory := [("V", { serviceDateLabel := "L", confidence := 3/5 })],
          correctionMemory := [], resolutionMemory := [], duplicateMemory := [] }
      ).2.resolutionMemory =
      recordApproval [] "VENDOR:V:serviceDateLabel" "t" ∧
    (Engine2.processInvoice "V" "I" "D" "Desc" false "t"
        { vendorMemory := [("V", { serviceDateLabel := "L", confidence := 3/5 })],
          correctionMemory := [], resolutionMemory := [], duplicateMemory := [] }
      ).2.resolutionMemory = [] := by
  obtain ⟨w1, w2⟩ := c9_system_success []
    { invoiceId := "X", vendor := "V",
      fields := { invoiceNumber := "I", invoiceDate := "D",
                  currency := none, poNumber := none, lineItems := [] },
      rawText := "" } "V" "I" "D" "Desc" "t"
    { vendorMemory := [("V", { serviceDateLabel := "L", confidence := 3/5 })],
      correctionMemory := [], resolutionMemory := [], duplicateMemory := [] }
    { vendorMemory := [("V", { serviceDateLabel := "L", confidence := 3/5 })],
      correctionMemory := [], resolutionMemory := [], duplicateMemory := [] }
  refine ⟨?_, w2⟩
  apply w1
  obtain ⟨r1, _⟩ := Engine1.full_run_noFeedback []
    { invoiceId := "X", vendor := "V",
      fields := { invoiceNumber := "I", invoiceDate := "D",
                  currency := none, poNumber := none, lineItems := [] },
      rawText := "" } "t"
    { vendorMemory := [("V", { serviceDateLabel := "L", confidence := 3/5 })],
      correctionMemory := [], resolutionMemory := [], duplicateMemory := [] } rfl
  rw [r1]
  simp [vendorAbove, ObjMap.find]

/-! ## Claims on the human-correction replay -/

theorem rememberCorrectionApproval_frame (mem : ObjMap CorrectionData)
    (pid d a ts k : String) (hk : k ≠ pid) :
    (rememberCorrectionApproval mem pid d a ts).find k = mem.find k := by
  unfold rememberCorrectionApproval
  cases h : mem.find pid <;> simp [ObjMap.find_set, Ne.symm hk]

theorem vat_approval_preserves_qty (mem : ObjMap CorrectionData) (d a ts : String) :
    (rememberCorrectionApproval mem "VAT_INCLUDED_IN_TOTAL" d a ts).find
      "QTY_MISMATCH_USE_DN_QTY" = mem.find "QTY_MISMATCH_USE_DN_QTY" :=
  rememberCorrectionApproval_frame mem "VAT_INCLUDED_IN_TOTAL" d a ts
    "QTY_MISMATCH_USE_DN_QTY" (by decide)

theorem currency_approval_preserves_qty (mem : ObjMap CorrectionData) (d a ts : String) :
    (rememberCorrectionApproval mem "CURRENCY_MISMATCH" d a ts).find
      "QTY_MISMATCH_USE_DN_QTY" = mem.find "QTY_MISMATCH_USE_DN_QTY" :=
  rememberCorrectionApproval_frame mem "CURRENCY_MISMATCH" d a ts
    "QTY_MISMATCH_USE_DN_QTY" (by decide)

theorem rememberCorrectionRejection_approvedCount (mem : ObjMap CorrectionData)
    (pid ts k : String) :
    ((rememberCorrectionRejection mem pid ts).find k).map CorrectionData.approvedCount =
    (mem.find k).map CorrectionData.approvedCount := by
  unfold rememberCorrectionRejection
  cases h : mem.find pid with
  | some c =>
    rw [ObjMap.find_set]
    by_cases hk : pid = k
    · subst hk
      rw [if_pos rfl, h]
      rfl
    · rw [if_neg hk]
  | none => rfl

theorem applyOneField_resolution (v : String) (dec : Decision) (now : String)
    (st : Stores) (fc : FieldCorrection) :
    (applyOneField v dec now st fc).resolutionMemory = st.resolutionMemory := by
  simp only [applyOneField]
  repeat' split
  all_goals rfl

theorem foldFields_resolution (v : String) (dec : Decision) (now : String) :
    ∀ (fcs : List FieldCorrection) (st : Stores),
    (fcs.foldl (applyOneField v dec now) st).resolutionMemory = st.resolutionMemory := by
  intro fcs
  induction fcs with
  | nil => intro st; rfl
  | cons fc rest ih =>
    intro st
    simp only [List.foldl_cons]
    rw [ih, applyOneField_resolution]

theorem applyOneField_rejected_qty (v now : String) (st : Stores)
    (fc : FieldCorrection) :
    ((applyOneField v .rejected now st fc).correctionMemory.find
        "QTY_MISMATCH_USE_DN_QTY").map CorrectionData.approvedCount =
    (st.correctionMemory.find "QTY_MISMATCH_USE_DN_QTY").map
      CorrectionData.approvedCount := by
  simp only [applyOneField]
  repeat' split
  all_goals simp_all [vat_approval_preserves_qty, currency_approval_preserves_qty,
    rememberCorrectionRejection_approvedCount]

theorem foldFields_rejected_qty (v now : String) :
    ∀ (fcs : List FieldCorrection) (st : Stores),
    ((fcs.foldl (applyOneField v .rejected now) st).correctionMemory.find
        "QTY_MISMATCH_USE_DN_QTY").map CorrectionData.approvedCount =
    (st.correctionMemory.find "QTY_MISMATCH_USE_DN_QTY").map
      CorrectionData.approvedCount := by
  intro fcs
  induction fcs with
  | nil => intro st; rfl
  | cons fc rest ih =>
    intro st
    simp only [List.foldl_cons]
    rw [ih, applyOneField_rejected_qty]

theorem applyOneField_vendorMemory (v : String) (dec : Decision) (now : String)
    (st : Stores) (fc : FieldCorrection) :
    (applyOneField v dec now st fc).vendorMemory =
      if (jsIncludes (jsToLower fc.field) "servicedate" ||
          jsToLower fc.field == "servicedatelabel") then
        rememberVendorCorrection st.vendorMemory v fc.correctedValue
      else st.vendorMemory := by
  simp only [applyOneField]
  repeat' split
  all_goals simp_all

theorem rememberVendorCorrection_mono {mem : ObjMap VendorData}
    (v label : String) (hwf : vendorStoreWF mem) (k : String) (dOld : VendorData)
    (hOld : mem.find k = some dOld) :
    ∃ dNew, (rememberVendorCorrection mem v label).find k = some dNew ∧
      dOld.confidence ≤ dNew.confidence := by
  unfold rememberVendorCorrection
  cases hfind : mem.find v with
  | some c =>
    rw [ObjMap.find_set]
    by_cases hk : v = k
    · subst hk
      rw [if_pos rfl]
      have hceq : c = dOld := by
        rw [hfind] at hOld
        injection hOld
      subst hceq
      exact ⟨_, rfl, confWF_reinforce_mono (hwf v c hfind)⟩
    · rw [if_neg hk]
      exact ⟨dOld, hOld, le_refl _⟩
  | none =>
    rw [ObjMap.find_set]
    by_cases hk : v = k
    · subst hk
      rw [hOld] at hfind
      cases hfind
    · rw [if_neg hk]
      exact ⟨dOld, hOld, le_refl _⟩

theorem applyOneField_vendor_step (v : String) (dec : Decision) (now : String)
    (st : Stores) (fc : FieldCorrection) (hwf : vendorStoreWF st.vendorMemory) :
    vendorStoreWF (applyOneField v dec now st fc).vendorMemory ∧
    (∀ k dOld, st.vendorMemory.find k = some dOld →
      ∃ dNew, (applyOneField v dec now st fc).vendorMemory.find k = some dNew ∧
        dOld.confidence ≤ dNew.confidence) := by
  rw [applyOneField_vendorMemory]
  split_ifs with hcond
  · exact ⟨vendorStoreWF_remember v fc.correctedValue hwf,
      fun k dOld hOld => rememberVendorCorrection_mono v fc.correctedValue hwf k dOld hOld⟩
  · exact ⟨hwf, fun k dOld hOld => ⟨dOld, hOld, le_refl _⟩⟩

theorem foldFields_vendor (v : String) (dec : Decision) (now : String) :
    ∀ (fcs : List FieldCorrection) (st : Stores),
    vendorStoreWF st.vendorMemory →
    vendorStoreWF (fcs.foldl (applyOneField v dec now) st).vendorMemory ∧
    (∀ k dOld, st.vendorMemory.find k = some dOld →
      ∃ dNew, ((fcs.foldl (applyOneField v dec now) st).vendorMemory).find k =
          some dNew ∧ dOld.confidence ≤ dNew.confidence) := by
  intro fcs
  induction fcs with
  | nil => intro st hwf; exact ⟨hwf, fun k dOld hOld => ⟨dOld, hOld, le_refl _⟩⟩
  | cons fc rest ih =>
    intro st hwf
    simp only [List.foldl_cons]
    obtain ⟨hwf1, hstep⟩ := applyOneField_vendor_step v dec now st fc hwf
    obtain ⟨hwfN, hrec⟩ := ih (applyOneField v dec now st fc) hwf1
    refine ⟨hwfN, ?_⟩
    intro k dOld hOld
    obtain ⟨dMid, hMid, h1⟩ := hstep k dOld hOld
    obtain ⟨dNew, hNew, h2⟩ := hrec k dMid hMid
    exact ⟨dNew, hNew, le_trans h1 h2⟩

/-- Claim C8 counterexample: replaying a human feedback whose final decision
is REJECTED but whose corrected field mentions VAT still REINFORCES the
pattern-scoped key VAT_INCLUDED_IN_TOTAL — a record is created with
approvedCount 1 by a rejected feedback. -/
theorem c8_counterexample :
    (((applyHumanCorrections
        [{ correctionId := "c1", invoiceId := "inv1", vendor := "V",
           fieldsCorrected := [{ field := "vat", originalValue := "x",
                                 correctedValue := "y", reason := "r" }],
           finalDecision := .rejected, timestamp := "t" }] "t" emptyStores
      ).correctionMemory.find "VAT_INCLUDED_IN_TOTAL").map
        CorrectionData.approvedCount = some 1) ∧
    (emptyStores.correctionMemory.find "VAT_INCLUDED_IN_TOTAL" = none) := by
  refine ⟨by decide, rfl⟩

/-- Claim C8 (amended): replaying a rejected human feedback records the
rejection in the resolution ledger under `VENDOR:<vendor>:correction`, never
increments the approvedCount of the only key it can decay
(QTY_MISMATCH_USE_DN_QTY), and never decays the vendor-scoped record (vendor
confidences can only grow during a replay) — but pattern-scoped VAT/currency
keys touched by the same rejected feedback ARE still reinforced. -/
theorem c8_rejected_replay (c : HumanCorrection) (now : String) (st : Stores)
    (hrej : c.finalDecision = .rejected) (hwf : vendorStoreWF st.vendorMemory) :
    ((applyOneCorrection now st c).resolutionMemory =
      recordRejection st.resolutionMemory
        ("VENDOR:" ++ c.vendor ++ ":correction") now) ∧
    (((applyOneCorrection now st c).correctionMemory.find
        "QTY_MISMATCH_USE_DN_QTY").map CorrectionData.approvedCount =
      (st.correctionMemory.find "QTY_MISMATCH_USE_DN_QTY").map
        CorrectionData.approvedCount) ∧
    (∀ k dOld dNew, st.vendorMemory.find k = some dOld →
      (applyOneCorrection now st c).vendorMemory.find k = some dNew →
      dOld.confidence ≤ dNew.confidence) := by
  unfold applyOneCorrection
  simp only [hrej]
  refine ⟨?_, ?_, ?_⟩
  · rw [foldFields_resolution]
  · exact foldFields_rejected_qty c.vendor now c.fieldsCorrected st
  · intro k dOld dNew hOld hNew
    obtain ⟨_, hmono⟩ := foldFields_vendor c.vendor .rejected now c.fieldsCorrected st hwf
    obtain ⟨dNew', hNew', hle⟩ := hmono k dOld hOld
    have hNew2 : (c.fieldsCorrected.foldl
        (applyOneField c.vendor .rejected now) st).vendorMemory.find k = some dNew := hNew
    rw [hNew'] at hNew2
    injection hNew2 with h
    rw [← h]
    exact hle

theorem vendorStoreWF_cons (v : String) (dta : VendorData)
    (rest : ObjMap VendorData) (h1 : confWF dta.confidence)
    (h2 : vendorStoreWF rest) : vendorStoreWF ((v, dta) :: rest) := by
  intro k d h
  have h' : (if v = k then some dta else rest.find k) = some d := h
  split_ifs at h' with hk
  · injection h' with hd
    rw [← hd]
    exact h1
  · exact h2 k d h'

/-- Witness for C8: a rejected quantity-mismatch feedback over a store that
holds the QTY pattern and a vendor record — the ledger gets the rejection,
the QTY approvedCount is unchanged, and the vendor confidence did not drop. -/
theorem c8_witness :
    ((applyOneCorrection "t1"
        { vendorMemory := [("V", { serviceDateLabel := "L", confidence := 1/2 })],
          correctionMemory := [("QTY_MISMATCH_USE_DN_QTY",
            { patternId := "QTY_MISMATCH_USE_DN_QTY", description := "d",
              action := "a", confidence := 1/2, approvedCount := 2,
              rejectedCount := 0, lastUpdated := "t0" })],
          resolutionMemory := [], duplicateMemory := [] }
        { correctionId := "c1", invoiceId := "inv1", vendor := "V",
          fieldsCorrected := [{ field := "quantity", originalValue := "3",
                                correctedValue := "4",
                                reason := "quantity mismatch" }],
          finalDecision := .rejected, timestamp := "t1" }).resolutionMemory =
      recordRejection [] "VENDOR:V:correction" "t1") ∧
    (((applyOneCorrection "t1"
        { vendorMemory := [("V", { serviceDateLabel := "L", confidence := 1/2 })],
          correctionMemory := [("QTY_MISMATCH_USE_DN_QTY",
            { patternId := "QTY_MISMATCH_USE_DN_QTY", description := "d",
              action := "a", confidence := 1/2, approvedCount := 2,
              rejectedCount := 0, lastUpdated := "t0" })],
          resolutionMemory := [], duplicateMemory := [] }
        { correctionId := "c1", invoiceId := "inv1", vendor := "V",
          fieldsCorrected := [{ field := "quantity", originalValue := "3",
                                correctedValue := "4",
                                reason := "quantity mismatch" }],
          finalDecision := .rejected, timestamp := "t1" }).correctionMemory.find
        "QTY_MISMATCH_USE_DN_QTY").map CorrectionData.approvedCount = some 2) := by
  obtain ⟨w1, w2, _⟩ := c8_rejected_replay
    { correctionId := "c1", invoiceId := "inv1", vendor := "V",
      fieldsCorrected := [{ field := "quantity", originalValue := "3",
                            correctedValue := "4",
                            reason := "quantity mismatch" }],
      finalDecision := .rejected, timestamp := "t1" } "t1"
    { vendorMemory := [("V", { serviceDateLabel := "L", confidence := 1/2 })],
      correctionMemory := [("QTY_MISMATCH_USE_DN_QTY",
        { patternId := "QTY_MISMATCH_USE_DN_QTY", description := "d",
          action := "a", confidence := 1/2, approvedCount := 2,
          rejectedCount := 0, lastUpdated := "t0" })],
      resolutionMemory := [], duplicateMemory := [] } rfl
    (vendorStoreWF_cons "V" { serviceDateLabel := "L", confidence := 1/2 } []
      confWF_init vendorStoreWF_nil)
  exact ⟨w1, by rw [w2]; rfl⟩
